import Mathlib

/-!
Verification of the color conversion core of HCLSliders (hclsliders/colorconversion.py).

The Python module is a pure numeric library: conversions between sRGB / linear
RGB and several cylindrical color models (HSV, HSL, HCY, OKLCH, OKHCL, OKHSV,
OKHSL), gamut-boundary search in Oklab, and textual notation parsing (hex,
oklab(), oklch()).

Embedding conventions:
* Python floats are modelled as real numbers; the arithmetic formulas are
  transcribed literally from the source.  Python `x ** e` is real rpow.
* Python strings are modelled as lists of characters (`Str`).
* Python `int(x)` truncation, `round` (banker's rounding), `%` on floats,
  `float(s)` and `int(s, 16)` parsing are modelled by the py* helpers below.
  The numeric-literal parsers return exact rationals (the real library rounds
  to the nearest double; that rounding is not modelled).
* Functions that can raise ValueError return Option/Except values.
-/

open scoped Classical

noncomputable section

abbrev Str := List Char

/-- ASCII whitespace as recognised by Python str.strip / float / int. -/
def pyIsWS (c : Char) : Bool :=
  c = ' ' || c = '\t' || c = '\n' || c = '\r' || c = '\x0b' || c = '\x0c'

/-- Python int(x) for a float x: truncation toward zero. -/
def pyInt (x : ℝ) : ℤ :=
  if x < 0 then -⌊-x⌋ else ⌊x⌋

/-- Python x % y for floats (sign follows the divisor; here y > 0 at all call sites). -/
def pyMod (x y : ℝ) : ℝ := x - y * ⌊x / y⌋

/-- Python round(x) : round half to even. -/
def pyRoundEven (x : ℝ) : ℤ :=
  if x - ⌊x⌋ < 1/2 then ⌊x⌋
  else if 1/2 < x - ⌊x⌋ then ⌊x⌋ + 1
  else if Even ⌊x⌋ then ⌊x⌋ else ⌊x⌋ + 1

/-- Python round(x, d) : round to d decimal places, half to even. -/
def pyRound (x : ℝ) (d : ℕ) : ℝ :=
  (pyRoundEven (x * 10 ^ d) : ℝ) / 10 ^ d

/-- sys.float_info.max : the largest finite IEEE-754 double. -/
def floatMax : ℝ := 2 ^ 1024 - 2 ^ 971

/-- The transfer-mode tag "sRGB". -/
def strSRGB : Str := ['s', 'R', 'G', 'B']

/-- The transfer-mode tag "linear". -/
def strLinear : Str := ['l', 'i', 'n', 'e', 'a', 'r']

namespace Convert

-- luma coefficients for ITU-R BT.709
def Y709R : ℝ := 0.2126
def Y709G : ℝ := 0.7152
def Y709B : ℝ := 0.0722
-- constants for sRGB transfer
def ALPHA : ℝ := 0.055
def GAMMA : ℝ := 2.4
def PHI : ℝ := 12.92
-- toe functions
def K1 : ℝ := 0.206
def K2 : ℝ := 0.03
def K3 : ℝ := (1 + K1) / (1 + K2)

/-- roundZero(n, d) for a nonnegative decimal count d : truncation toward zero
to d decimal places.  (The source's validation of d is modelled by
roundZeroChecked below; internal call sites all pass literal d of 2 or 4.) -/
def roundZero (n : ℝ) (d : ℕ) : ℝ :=
  let s : ℝ := if n < 0 then -1 else 1
  if d = 0 then (⌊|n|⌋ : ℝ) * s
  else (⌊|n| * 10 ^ d⌋ : ℝ) / 10 ^ d * s

/-- roundZero with the source's argument validation: a negative decimal-place
count raises ValueError (modelled as Except.error).  The source's TypeError
branch for a non-integer d is unrepresentable here since d : ℤ by typing. -/
def roundZeroChecked (n : ℝ) (d : ℤ) : Except String ℝ :=
  let s : ℝ := if n < 0 then -1 else 1
  if d < 0 then .error "decimal places has to be 0 or more"
  else if d = 0 then .ok ((⌊|n|⌋ : ℝ) * s)
  else .ok ((⌊|n| * (10 : ℝ) ^ d⌋ : ℝ) / (10 : ℝ) ^ d * s)

/-- clampF(f, u, l): clamp f into [l, u], with a special round-up of values
slightly below 1 when u = 1 (guarding Oklab conversion overshoot). -/
def clampF (f : ℝ) (u : ℝ) (l : ℝ) : ℝ :=
  if f < l then l
  else if (u = 1 ∧ f > 0.999999) ∨ f > u then u
  else f

/-- sRGB transfer encode (linear component to sRGB component). -/
def componentToSRGB (c : ℝ) : ℝ :=
  if c > 0.0031308 then (1 + ALPHA) * c ^ ((1 : ℝ) / GAMMA) - ALPHA else c * PHI

/-- sRGB transfer decode (sRGB component to linear component). -/
def componentToLinear (c : ℝ) : ℝ :=
  if c > 0.04045 then ((c + ALPHA) / (1 + ALPHA)) ^ GAMMA else c / PHI

/-- math.atan2(b, a): the argument of the complex number a + b i. -/
def atan2 (y x : ℝ) : ℝ := Complex.arg (Complex.mk x y)

/-- cartesianToPolar(a, b): chroma (hypotenuse) and hue in degrees in [0, 360). -/
def cartesianToPolar (a b : ℝ) : ℝ × ℝ :=
  let c := Real.sqrt (a ^ 2 + b ^ 2)
  let hRad := atan2 b a
  let hRad2 := if hRad < 0 then hRad + Real.pi * 2 else hRad
  (c, hRad2 * (180 / Real.pi))

/-- polarToCartesian(c, h): h in degrees. -/
def polarToCartesian (c h : ℝ) : ℝ × ℝ :=
  let hRad := h * (Real.pi / 180)
  (c * Real.cos hRad, c * Real.sin hRad)

/-- linearToOklab: linear RGB to Oklab (cone matrix, cube root, Lab matrix). -/
def linearToOklab (r g b : ℝ) : ℝ × ℝ × ℝ :=
  -- convert to approximate cone responses
  let l := 0.412221469470763 * r + 0.5363325372617348 * g + 0.0514459932675022 * b
  let m := 0.2119034958178252 * r + 0.6806995506452344 * g + 0.1073969535369406 * b
  let s := 0.0883024591900564 * r + 0.2817188391361215 * g + 0.6299787016738222 * b
  -- apply non-linearity
  let l_ := l ^ ((1 : ℝ) / 3)
  let m_ := m ^ ((1 : ℝ) / 3)
  let s_ := s ^ ((1 : ℝ) / 3)
  -- transform to Lab coordinates
  (0.210454268309314 * l_ + 0.7936177747023054 * m_ - 0.0040720430116193 * s_,
   1.9779985324311684 * l_ - 2.4285922420485799 * m_ + 0.450593709617411 * s_,
   0.0259040424655478 * l_ + 0.7827717124575296 * m_ - 0.8086757549230774 * s_)

/-- oklabToLinear: Oklab to linear RGB (inverse coordinates, cube, inverse cone). -/
def oklabToLinear (okL okA okB : ℝ) : ℝ × ℝ × ℝ :=
  -- inverse coordinates
  let l_ := okL + 0.3963377773761749 * okA + 0.2158037573099136 * okB
  let m_ := okL - 0.1055613458156586 * okA - 0.0638541728258133 * okB
  let s_ := okL - 0.0894841775298119 * okA - 1.2914855480194092 * okB
  -- reverse non-linearity
  let l := l_ * l_ * l_
  let m := m_ * m_ * m_
  let s := s_ * s_ * s_
  -- convert to linear rgb
  (4.0767416360759574 * l - 3.3077115392580616 * m + 0.2309699031821044 * s,
   -1.2684379732850317 * l + 2.6097573492876887 * m - 0.3413193760026573 * s,
   -0.0041960761386756 * l - 0.7034186179359362 * m + 1.7076146940746117 * s)

/-- toe function for L_r. -/
def toe (x : ℝ) : ℝ :=
  0.5 * (K3 * x - K1 + ((K3 * x - K1) * (K3 * x - K1) + 4 * K2 * K3 * x) ^ ((1 : ℝ) / 2))

/-- inverse toe function for L_r. -/
def toeInv (x : ℝ) : ℝ := (x * x + K1 * x) / (K3 * (x + K2))

/-- The coefficient selection in computeMaxSaturation: polynomial and linear-RGB
weights for the channel predicted to leave the gamut first (red / green / blue). -/
def msCoeffs (a b : ℝ) : ℝ × ℝ × ℝ × ℝ × ℝ × ℝ × ℝ × ℝ :=
  if -1.88170328 * a - 0.80936493 * b > 1 then
    -- Red component
    (1.19086277, 1.76576728, 0.59662641, 0.75515197, 0.56771245,
     4.0767416621, -3.3077115913, 0.2309699292)
  else if 1.81444104 * a - 1.19445276 * b > 1 then
    -- Green component
    (0.73956515, -0.45954404, 0.08285427, 0.12541070, 0.14503204,
     -1.2684380046, 2.6097574011, -0.3413193965)
  else
    -- Blue component
    (1.35733652, -0.00915799, -1.15130210, -0.50559606, 0.00692167,
     -0.0041960863, -0.7034186147, 1.7076147010)

/-- computeMaxSaturation(a, b) with a, b normalized so a^2 + b^2 = 1: polynomial
approximation of max S = C/L followed by a single Halley step. -/
def computeMaxSaturation (a b : ℝ) : ℝ :=
  let kw := msCoeffs a b
  let k0 := kw.1
  let k1 := kw.2.1
  let k2 := kw.2.2.1
  let k3 := kw.2.2.2.1
  let k4 := kw.2.2.2.2.1
  let wl := kw.2.2.2.2.2.1
  let wm := kw.2.2.2.2.2.2.1
  let ws := kw.2.2.2.2.2.2.2
  let maxS := k0 + k1 * a + k2 * b + k3 * a * a + k4 * a * b
  let k_l := 0.3963377774 * a + 0.2158037573 * b
  let k_m := -0.1055613458 * a - 0.0638541728 * b
  let k_s := -0.0894841775 * a - 1.2914855480 * b
  let l_ := 1 + maxS * k_l
  let m_ := 1 + maxS * k_m
  let s_ := 1 + maxS * k_s
  let l := l_ * l_ * l_
  let m := m_ * m_ * m_
  let s := s_ * s_ * s_
  let l_dS := 3 * k_l * l_ * l_
  let m_dS := 3 * k_m * m_ * m_
  let s_dS := 3 * k_s * s_ * s_
  let l_dS2 := 6 * k_l * k_l * l_
  let m_dS2 := 6 * k_m * k_m * m_
  let s_dS2 := 6 * k_s * k_s * s_
  let f := wl * l + wm * m + ws * s
  let f1 := wl * l_dS + wm * m_dS + ws * s_dS
  let f2 := wl * l_dS2 + wm * m_dS2 + ws * s_dS2
  maxS - f * f1 / (f1 * f1 - 0.5 * f * f2)

/-- findCuspLC(a, b): L and C of the gamut cusp for the hue direction (a, b). -/
def findCuspLC (a b : ℝ) : ℝ × ℝ :=
  let maxS := computeMaxSaturation a b
  let maxRgb := oklabToLinear 1 (maxS * a) (maxS * b)
  let cuspL := (1 / max maxRgb.1 (max maxRgb.2.1 maxRgb.2.2)) ^ ((1 : ℝ) / 3)
  (cuspL, cuspL * maxS)

/-- findGamutIntersection: parametric t where the ray from (L0, 0) toward
(L1, C1) leaves the sRGB gamut; lower half closed form, upper half triangle
edge plus one guarded Halley step per RGB channel. -/
def findGamutIntersection (a b l1 c1 l0 : ℝ) (cuspLC : Option (ℝ × ℝ)) : ℝ :=
  let cusp := cuspLC.getD (findCuspLC a b)
  if (l1 - l0) * cusp.2 - (cusp.1 - l1) * c1 ≤ 0 then
    -- Lower half
    cusp.2 * l0 / (c1 * cusp.1 + cusp.2 * (l0 - l1))
  else
    -- Upper half: first intersect with triangle
    let t := cusp.2 * (l0 - 1) / (c1 * (cusp.1 - 1) + cusp.2 * (l0 - l1))
    -- Then one step Halley's method
    let dL := l1 - l0
    let dC := c1
    let k_l := 0.3963377774 * a + 0.2158037573 * b
    let k_m := -0.1055613458 * a - 0.0638541728 * b
    let k_s := -0.0894841775 * a - 1.2914855480 * b
    let l_dt := dL + dC * k_l
    let m_dt := dL + dC * k_m
    let s_dt := dL + dC * k_s
    let l0t := l0 * (1 - t) + t * l1
    let ct := t * c1
    let l_ := l0t + ct * k_l
    let m_ := l0t + ct * k_m
    let s_ := l0t + ct * k_s
    let l := l_ * l_ * l_
    let m := m_ * m_ * m_
    let s := s_ * s_ * s_
    let ldt := 3 * l_dt * l_ * l_
    let mdt := 3 * m_dt * m_ * m_
    let sdt := 3 * s_dt * s_ * s_
    let ldt2 := 6 * l_dt * l_dt * l_
    let mdt2 := 6 * m_dt * m_dt * m_
    let sdt2 := 6 * s_dt * s_dt * s_
    let rr := 4.0767416621 * l - 3.3077115913 * m + 0.2309699292 * s - 1
    let rr1 := 4.0767416621 * ldt - 3.3077115913 * mdt + 0.2309699292 * sdt
    let rr2 := 4.0767416621 * ldt2 - 3.3077115913 * mdt2 + 0.2309699292 * sdt2
    let u_r := rr1 / (rr1 * rr1 - 0.5 * rr * rr2)
    let t_r := -rr * u_r
    let gg := -1.2684380046 * l + 2.6097574011 * m - 0.3413193965 * s - 1
    let gg1 := -1.2684380046 * ldt + 2.6097574011 * mdt - 0.3413193965 * sdt
    let gg2 := -1.2684380046 * ldt2 + 2.6097574011 * mdt2 - 0.3413193965 * sdt2
    let u_g := gg1 / (gg1 * gg1 - 0.5 * gg * gg2)
    let t_g := -gg * u_g
    let bb := -0.0041960863 * l - 0.7034186147 * m + 1.7076147010 * s - 1
    let bb1 := -0.0041960863 * ldt - 0.7034186147 * mdt + 1.7076147010 * sdt
    let bb2 := -0.0041960863 * ldt2 - 0.7034186147 * mdt2 + 1.7076147010 * sdt2
    let u_b := bb1 / (bb1 * bb1 - 0.5 * bb * bb2)
    let t_b := -bb * u_b
    let t_r2 := if u_r ≥ 0 then t_r else floatMax
    let t_g2 := if u_g ≥ 0 then t_g else floatMax
    let t_b2 := if u_b ≥ 0 then t_b else floatMax
    t + min (min t_r2 t_g2) t_b2

/-- cuspToST: slopes of the two gamut-triangle edges. -/
def cuspToST (cuspLC : ℝ × ℝ) : ℝ × ℝ :=
  (cuspLC.2 / cuspLC.1, cuspLC.2 / (1 - cuspLC.1))

/-- getMidST: smooth polynomial approximation of the cusp location. -/
def getMidST (a_ b_ : ℝ) : ℝ × ℝ :=
  (0.11516993 + 1 / (7.44778970 + 4.15901240 * b_
      + a_ * (-2.19557347 + 1.75198401 * b_
        + a_ * (-2.13704948 - 10.02301043 * b_
          + a_ * (-4.24894561 + 5.38770819 * b_ + 4.69891013 * a_)))),
   0.11239642 + 1 / (1.61320320 - 0.68124379 * b_
      + a_ * (0.40370612 + 0.90148123 * b_
        + a_ * (-0.27087943 + 0.61223990 * b_
          + a_ * (0.00299215 - 0.45399568 * b_ - 0.14661872 * a_)))))

/-- getCs: the smooth chroma envelope (C_0, C_mid, C_max) used by OKHSL. -/
def getCs (l a_ b_ : ℝ) : ℝ × ℝ × ℝ :=
  let cuspLC := findCuspLC a_ b_
  let cMax := findGamutIntersection a_ b_ l 1 l (some cuspLC)
  let maxST := cuspToST cuspLC
  let k := cMax / min (l * maxST.1) ((1 - l) * maxST.2)
  let midST := getMidST a_ b_
  let cMid := 0.9 * k * (1 / (1 / (l * midST.1) ^ 4 + 1 / ((1 - l) * midST.2) ^ 4)) ^ ((1 : ℝ) / 4)
  let c0 := (1 / (1 / (l * 0.4) ^ 2 + 1 / ((1 - l) * 0.8) ^ 2)) ^ ((1 : ℝ) / 2)
  (c0, cMid, cMax)

/-- hSectorToRgbF: distribute max/med/min over the RGB channels by hue sector;
convert to linear when the caller works in linear RGB. -/
def hSectorToRgbF (hSector : ℤ) (v m x : ℝ) (trc : Str) : ℝ × ℝ × ℝ :=
  let rgb : ℝ × ℝ × ℝ :=
    if hSector = 1 then (x, v, m)        -- between yellow and green
    else if hSector = 2 then (m, v, x)   -- between green and cyan
    else if hSector = 3 then (m, x, v)   -- between cyan and blue
    else if hSector = 4 then (x, m, v)   -- between blue and magenta
    else if hSector = 5 then (v, m, x)   -- between magenta and red
    else (v, x, m)                       -- between red and yellow
  if trc = strSRGB then rgb
  else (componentToLinear rgb.1, componentToLinear rgb.2.1, componentToLinear rgb.2.2)

/-- hsvToRgbF(h, s, v, trc): h in degrees, s and v in percent. -/
def hsvToRgbF (h s v : ℝ) (trc : Str) : ℝ × ℝ × ℝ :=
  let h2 := h / 60
  let hSector := pyInt h2
  let s2 := s / 100
  let v2 := v / 100
  let m := v2 * (1 - s2)
  let d := if hSector % 2 ≠ 0 then h2 - hSector else 1 - (h2 - hSector)
  let x := v2 * (1 - d * s2)
  hSectorToRgbF hSector v2 m x trc

/-- hslToRgbF(h, s, l, trc): h in degrees, s and l in percent. -/
def hslToRgbF (h s l : ℝ) (trc : Str) : ℝ × ℝ × ℝ :=
  let h2 := h / 60
  let hSector := pyInt h2
  let s2 := s / 100
  let l2 := l / 100
  let v := if l2 < 0.5 then l2 * (1 + s2) else s2 * (1 - l2) + l2
  let m := 2 * l2 - v
  let d := if hSector % 2 ≠ 0 then h2 - hSector else 1 - (h2 - hSector)
  let x := v - d * (v - m)
  hSectorToRgbF hSector v m x trc

/-- hcyToRgbF(h, c, y, u, trc, luma): h in degrees, c/y/u in percent; y = -1 and
u = -1 are the max-chroma / no-limit sentinels. -/
def hcyToRgbF (h c y u : ℝ) (trc : Str) (luma : Bool) : ℝ × ℝ × ℝ :=
  let h2 := h / 60
  let hSector := pyInt h2
  -- pass in y and u as -1 for max chroma conversions
  let y2 := if y ≠ -1 then y / 100 else y
  if c = 0 ∨ y2 = 0 ∨ y2 = 1 then
    let y3 := if luma ∧ trc = strLinear then componentToLinear y2 else y2
    (y3, y3, y3)
  else
    let d := if hSector % 2 = 0 then h2 - hSector else 1 - (h2 - hSector)
    let yHue : ℝ :=
      if hSector = 1 then Y709G + Y709R * d
      else if hSector = 2 then Y709G + Y709B * d
      else if hSector = 3 then Y709B + Y709G * d
      else if hSector = 4 then Y709B + Y709R * d
      else if hSector = 5 then Y709R + Y709B * d
      else Y709R + Y709G * d
    -- when chroma is at maximum, y = luma coefficient of hue
    let y3 := if y2 = -1 then yHue else y2
    let cMax := if y3 ≤ yHue then y3 / yHue else (1 - y3) / (1 - yHue)
    let c2 :=
      if u = -1 then
        -- scale chroma to 1 before comparing, clip chroma to new limit
        let c3 := c / 100
        if c3 > cMax then cMax else c3
      else
        -- scale chroma to hue or luma adjustment
        let s := if u ≠ 0 then c / u else 0
        s * cMax
    let m := y3 - c2 * yHue
    let x := y3 - c2 * (yHue - d)
    let v := y3 + c2 * (1 - yHue)
    if luma then hSectorToRgbF hSector v m x trc
    else hSectorToRgbF hSector v m x strSRGB

/-- rgbFToOklch(r, g, b, h, trc): returns (L percent, C, hue, chroma limit u);
for near-neutral colors the passed-in hue h is kept and used for the limit. -/
def rgbFToOklch (r g b h : ℝ) (trc : Str) : ℝ × ℝ × ℝ × ℝ :=
  let r2 := if trc = strSRGB then componentToLinear r else r
  let g2 := if trc = strSRGB then componentToLinear g else g
  let b2 := if trc = strSRGB then componentToLinear b else b
  let oklab := linearToOklab r2 g2 b2
  let l := oklab.1
  let ch := cartesianToPolar oklab.2.1 oklab.2.2
  let c := ch.1
  let chu : ℝ × ℝ × ℝ :=
    if c < 0.000001 then
      -- use current hue to calculate chroma limit in sRGB gamut for neutral colors
      let ab := polarToCartesian 1 h
      let u := findGamutIntersection ab.1 ab.2 l 1 l none
      (0, h, u)
    else
      -- a and b must be normalized to c = 1 to calculate chroma limit in sRGB gamut
      let a_ := oklab.2.1 / c
      let b_ := oklab.2.2 / c
      let u := findGamutIntersection a_ b_ l 1 l none
      let c2 := if c > u then u else c
      -- chroma adjustment due to rounding up blue hue
      if 264.052 < ch.2 ∧ ch.2 < 264.06 then (pyRound (c2 - 0.0001) 4, 264.06, u)
      else (roundZero c2 4, pyRound ch.2 2, u)
  let u2 := if chu.2.1 = 264.06 then pyRound (chu.2.2 - 0.0001) 4 else roundZero chu.2.2 4
  (pyRound (l * 100) 2, chu.1, chu.2.1, u2)

/-- oklchToRgbF(l, c, h, u, trc): l in percent; u = -1 requests clipping to the
gamut, otherwise chroma is rescaled by the ratio to the previous limit u. -/
def oklchToRgbF (l c h u : ℝ) (trc : Str) : ℝ × ℝ × ℝ :=
  let l2 := l / 100
  -- clip chroma if exceed sRGB gamut
  let ab := polarToCartesian 1 h
  let c2 :=
    if c ≠ 0 then
      let cMax := findGamutIntersection ab.1 ab.2 l2 1 l2 none
      if u = -1 then (if c > cMax then cMax else c)
      else ((c + 0.00005) / (u + 0.00005)) * cMax
    else c
  let rgb := oklabToLinear l2 (ab.1 * c2) (ab.2 * c2)
  let r := if trc = strSRGB then componentToSRGB rgb.1 else rgb.1
  let g := if trc = strSRGB then componentToSRGB rgb.2.1 else rgb.2.1
  let b := if trc = strSRGB then componentToSRGB rgb.2.2 else rgb.2.2
  (clampF r 1 0, clampF g 1 0, clampF b 1 0)

/-- rgbFToOkhcl(r, g, b, h, trc): returns (hue, C percent relative to cusp,
toe-compressed L percent, limit u percent); keeps the passed-in hue when neutral. -/
def rgbFToOkhcl (r g b h : ℝ) (trc : Str) : ℝ × ℝ × ℝ × ℝ :=
  let r2 := if trc = strSRGB then componentToLinear r else r
  let g2 := if trc = strSRGB then componentToLinear g else g
  let b2 := if trc = strSRGB then componentToLinear b else b
  let oklab := linearToOklab r2 g2 b2
  let l := oklab.1
  let ch := cartesianToPolar oklab.2.1 oklab.2.2
  let c := ch.1
  let hcu : ℝ × ℝ × ℝ :=
    if c < 0.000001 then
      -- use current hue to calculate chroma limit in sRGB gamut for neutral colors
      let ab := polarToCartesian 1 h
      let cuspLC := findCuspLC ab.1 ab.2
      let u := findGamutIntersection ab.1 ab.2 l 1 l (some cuspLC)
      (h, 0, u / cuspLC.2)
    else
      -- gamut intersection jumps for parts of blue
      let h2 := if ¬(264.052 < ch.2 ∧ ch.2 < 264.06) then ch.2 else 264.06
      let a_ := oklab.2.1 / c
      let b_ := oklab.2.2 / c
      let cuspLC := findCuspLC a_ b_
      let u := findGamutIntersection a_ b_ l 1 l (some cuspLC)
      let c2 := if c > u then u else c
      (h2, c2 / cuspLC.2, u / cuspLC.2)
  (pyRound hcu.1 2, pyRound (hcu.2.1 * 100) 3, pyRound (toe l * 100) 2,
   pyRound (hcu.2.2 * 100) 3)

/-- okhclToRgbF(h, c, l, u, trc): inverse of rgbFToOkhcl. -/
def okhclToRgbF (h c l u : ℝ) (trc : Str) : ℝ × ℝ × ℝ :=
  -- convert lref back to okL
  let l2 := toeInv (l / 100)
  -- clip chroma if exceed sRGB gamut
  let ab := polarToCartesian 1 h
  let c2 :=
    if c ≠ 0 then
      let cuspLC := findCuspLC ab.1 ab.2
      let cMax := findGamutIntersection ab.1 ab.2 l2 1 l2 (some cuspLC)
      if u = -1 then
        let c3 := c / 100 * cuspLC.2
        if c3 > cMax then cMax else c3
      else (c / u) * cMax
    else c
  let rgb := oklabToLinear l2 (ab.1 * c2) (ab.2 * c2)
  let r := if trc = strSRGB then componentToSRGB rgb.1 else rgb.1
  let g := if trc = strSRGB then componentToSRGB rgb.2.1 else rgb.2.1
  let b := if trc = strSRGB then componentToSRGB rgb.2.2 else rgb.2.2
  (clampF r 1 0, clampF g 1 0, clampF b 1 0)

/-- rgbFToOkhsv(r, g, b, trc): returns (hue, S percent, V percent); neutral
colors report hue 0 (the function takes no previous hue). -/
def rgbFToOkhsv (r g b : ℝ) (trc : Str) : ℝ × ℝ × ℝ :=
  let r2 := if trc = strSRGB then componentToLinear r else r
  let g2 := if trc = strSRGB then componentToLinear g else g
  let b2 := if trc = strSRGB then componentToLinear b else b
  let oklab := linearToOklab r2 g2 b2
  let l := oklab.1
  let ch := cartesianToPolar oklab.2.1 oklab.2.2
  let c := ch.1
  if c < 0.000001 then (0, 0, pyRound (toe l * 100) 2)
  else
    -- gamut intersection jumps for parts of blue
    let h := if ¬(264.052 < ch.2 ∧ ch.2 < 264.06) then ch.2 else 264.06
    let a_ := oklab.2.1 / c
    let b_ := oklab.2.2 / c
    let cuspLC := findCuspLC a_ b_
    let st := cuspToST cuspLC
    let sMax := st.1
    let tMax := st.2
    let s0 : ℝ := 0.5
    let k := 1 - s0 / sMax
    let t := tMax / (c + l * tMax)
    let l_v := t * l
    let c_v := t * c
    let l_vt := toeInv l_v
    let c_vt := c_v * l_vt / l_v
    let rgbScale := oklabToLinear l_vt (a_ * c_vt) (b_ * c_vt)
    let scaleL := (1 / max rgbScale.1 (max rgbScale.2.1 rgbScale.2.2)) ^ ((1 : ℝ) / 3)
    let l2 := toe (l / scaleL)
    let v := l2 / l_v
    let s := (s0 + tMax) * c_v / (tMax * s0 + tMax * k * c_v)
    let s2 := if s > 1 then 1 else s
    (pyRound h 2, pyRound (s2 * 100) 2, pyRound (v * 100) 2)

/-- okhsvToRgbF(h, s, v, trc): inverse of rgbFToOkhsv. -/
def okhsvToRgbF (h s v : ℝ) (trc : Str) : ℝ × ℝ × ℝ :=
  let s2 := s / 100
  let v2 := v / 100
  if v2 = 0 then (0, 0, 0)
  else
    let rgb : ℝ × ℝ × ℝ :=
      if s2 = 0 then oklabToLinear (toeInv v2) 0 0
      else
        let ab := polarToCartesian 1 h
        let cuspLC := findCuspLC ab.1 ab.2
        let st := cuspToST cuspLC
        let sMax := st.1
        let tMax := st.2
        let s0 : ℝ := 0.5
        let k := 1 - s0 / sMax
        let l_v := 1 - s2 * s0 / (s0 + tMax - tMax * k * s2)
        let c_v := s2 * tMax * s0 / (s0 + tMax - tMax * k * s2)
        let l := v2 * l_v
        let c := v2 * c_v
        let l_vt := toeInv l_v
        let c_vt := c_v * l_vt / l_v
        let l_new := toeInv l
        let c2 := c * (l_new / l)
        let rgbScale := oklabToLinear l_vt (ab.1 * c_vt) (ab.2 * c_vt)
        let scaleL := (1 / max rgbScale.1 (max rgbScale.2.1 rgbScale.2.2)) ^ ((1 : ℝ) / 3)
        let l3 := l_new * scaleL
        let c3 := c2 * scaleL
        oklabToLinear l3 (ab.1 * c3) (ab.2 * c3)
    let r := if trc = strSRGB then componentToSRGB rgb.1 else rgb.1
    let g := if trc = strSRGB then componentToSRGB rgb.2.1 else rgb.2.1
    let b := if trc = strSRGB then componentToSRGB rgb.2.2 else rgb.2.2
    (clampF r 1 0, clampF g 1 0, clampF b 1 0)

/-- okhslToRgbF(h, s, l, trc): OKHSL to RGB through the smooth chroma envelope. -/
def okhslToRgbF (h s l : ℝ) (trc : Str) : ℝ × ℝ × ℝ :=
  let s2 := s / 100
  let l2 := l / 100
  if l2 = 0 ∨ l2 = 1 then (l2, l2, l2)
  else
    let ab := polarToCartesian 1 h
    let l3 := toeInv l2
    let c : ℝ :=
      if s2 ≠ 0 then
        let cs := getCs l3 ab.1 ab.2
        let c0 := cs.1
        let cMid := cs.2.1
        let cMax := cs.2.2
        let mid : ℝ := 0.8
        let midInv : ℝ := 1.25
        if s2 < mid then
          let t := midInv * s2
          let k1 := mid * c0
          let k2 := 1 - k1 / cMid
          t * k1 / (1 - k2 * t)
        else
          let t := (s2 - mid) / (1 - mid)
          let k1 := (1 - mid) * cMid * cMid * midInv * midInv / c0
          let k2 := 1 - k1 / (cMax - cMid)
          cMid + t * k1 / (1 - k2 * t)
      else 0
    let rgb := oklabToLinear l3 (ab.1 * c) (ab.2 * c)
    let r := if trc = strSRGB then componentToSRGB rgb.1 else rgb.1
    let g := if trc = strSRGB then componentToSRGB rgb.2.1 else rgb.2.1
    let b := if trc = strSRGB then componentToSRGB rgb.2.2 else rgb.2.2
    (clampF r 1 0, clampF g 1 0, clampF b 1 0)

/-- Python str.startswith for list-of-char strings. -/
def startsW (s pre : Str) : Bool := s.take pre.length == pre

/-- Python str.endswith for list-of-char strings. -/
def endsW (s suf : Str) : Bool := s.drop (s.length - suf.length) == suf

/-- Python str.strip(chars): remove the given characters from both ends. -/
def pyStrip (s : Str) (cs : List Char) : Str :=
  ((s.dropWhile cs.contains).reverse.dropWhile cs.contains).reverse

/-- Python str.strip(): remove whitespace from both ends. -/
def pyStripWS (s : Str) : Str :=
  ((s.dropWhile pyIsWS).reverse.dropWhile pyIsWS).reverse

/-- Worker for Python str.split(): split on whitespace runs, dropping empties. -/
def splitWSAux : Str → Str → List Str
  | [], acc => if acc.isEmpty then [] else [acc.reverse]
  | c :: cs, acc =>
    if pyIsWS c then
      if acc.isEmpty then splitWSAux cs [] else acc.reverse :: splitWSAux cs []
    else splitWSAux cs (c :: acc)

/-- Python str.split() with no separator. -/
def pySplitWS (s : Str) : List Str := splitWSAux s []

/-- Decimal digit test. -/
def isDig (c : Char) : Bool := '0' ≤ c && c ≤ '9'

/-- Value of a decimal digit. -/
def digVal (c : Char) : ℕ := c.toNat - 48

/-- Value of the decimal digit string l (most significant first). -/
def natOfDigits (l : Str) : ℕ := l.foldl (fun a c => 10 * a + digVal c) 0

/-- Value of a hexadecimal digit, if any (both cases accepted). -/
def hexVal (c : Char) : Option ℕ :=
  if '0' ≤ c ∧ c ≤ '9' then some (c.toNat - 48)
  else if 'a' ≤ c ∧ c ≤ 'f' then some (c.toNat - 87)
  else if 'A' ≤ c ∧ c ≤ 'F' then some (c.toNat - 55)
  else none

/-- Accumulate the value of a hex digit string; none on a non-hex character. -/
def hexDigitsVal : Str → ℕ → Option ℕ
  | [], acc => some acc
  | c :: cs, acc =>
    match hexVal c with
    | some v => hexDigitsVal cs (16 * acc + v)
    | none => none

/-- Python int(s, 16): strip whitespace, optional sign, optional 0x/0X prefix,
then a nonempty run of hex digits.  (Python additionally accepts single
underscores between digits; that form cannot reach the two-character slices
this module parses, so it is not modelled.) -/
def pyIntBase16 (s : Str) : Option ℤ :=
  let t := pyStripWS s
  let st : ℤ × Str :=
    match t with
    | c :: r => if c = '+' then (1, r) else if c = '-' then (-1, r) else (1, t)
    | [] => (1, t)
  let t2 : Str :=
    match st.2 with
    | c :: x :: r => if c = '0' ∧ (x = 'x' ∨ x = 'X') then r else st.2
    | _ => st.2
  match t2 with
  | [] => none
  | _ => (hexDigitsVal t2 0).map (fun n : ℕ => st.1 * (n : ℤ))

/-- The optional signed decimal exponent of a float literal (after the e/E). -/
def expPart (r : Str) : Option ℤ :=
  let est : ℤ × Str :=
    match r with
    | '+' :: r2 => (1, r2)
    | '-' :: r2 => (-1, r2)
    | _ => (1, r)
  let ed := est.2.takeWhile isDig
  if ed.isEmpty ∨ ¬(est.2.dropWhile isDig).isEmpty then none
  else some (est.1 * (natOfDigits ed : ℤ))

/-- Syntactic decomposition of a Python float literal: optional surrounding
whitespace, optional sign, digits with an optional point, optional decimal
exponent.  Returns (sign, integer part, fraction digits value, fraction digit
count, exponent).  (The inf/nan forms and underscore separators Python also
accepts are not modelled.) -/
def pyFloatParts (s : Str) : Option (ℤ × ℕ × ℕ × ℕ × ℤ) :=
  let t := pyStripWS s
  let st : ℤ × Str :=
    match t with
    | '+' :: r => (1, r)
    | '-' :: r => (-1, r)
    | _ => (1, t)
  let ip := st.2.takeWhile isDig
  let t2 := st.2.dropWhile isDig
  let fpRest : Str × Str :=
    match t2 with
    | '.' :: r => (r.takeWhile isDig, r.dropWhile isDig)
    | _ => ([], t2)
  let fp := fpRest.1
  if ip.isEmpty ∧ fp.isEmpty then none
  else
    match fpRest.2 with
    | [] => some (st.1, natOfDigits ip, natOfDigits fp, fp.length, 0)
    | 'e' :: r => (expPart r).map (fun e => (st.1, natOfDigits ip, natOfDigits fp, fp.length, e))
    | 'E' :: r => (expPart r).map (fun e => (st.1, natOfDigits ip, natOfDigits fp, fp.length, e))
    | _ => none

/-- The exact rational value of a decomposed float literal. -/
def floatVal (p : ℤ × ℕ × ℕ × ℕ × ℤ) : ℚ :=
  (p.1 : ℚ) * ((p.2.1 : ℚ) + (p.2.2.1 : ℚ) / 10 ^ p.2.2.2.1) * 10 ^ p.2.2.2.2

/-- Python float(s) restricted to finite decimal literals; the exact rational
value is returned (the rounding to the nearest binary double is dropped). -/
def pyFloatQ (s : Str) : Option ℚ :=
  (pyFloatParts s).map floatVal

/-- rgbFToInt8(r, g, b, trc): 8-bit channel values; int() truncation for sRGB
input, sRGB-encode then round for linear input. -/
def rgbFToInt8 (r g b : ℝ) (trc : Str) : ℤ × ℤ × ℤ :=
  if trc = strSRGB then (pyInt (r * 255), pyInt (g * 255), pyInt (b * 255))
  else
    (pyRoundEven (componentToSRGB r * 255), pyRoundEven (componentToSRGB g * 255),
     pyRoundEven (componentToSRGB b * 255))

/-- Python hex(n)[2:]: lowercase hex digits of n, with the leading x kept when n
is negative (hex(-5) is "-0x5", so the slice from index 2 is "x5"). -/
def pyHexSlice (n : ℤ) : Str :=
  if n < 0 then 'x' :: Nat.toDigits 16 n.natAbs
  else Nat.toDigits 16 n.toNat

/-- Python str.zfill(2): left-pad with zeros to length 2. -/
def zfill2 (s : Str) : Str :=
  if s.length < 2 then List.replicate (2 - s.length) '0' ++ s else s

/-- Python str.upper() on ASCII. -/
def upperStr (s : Str) : Str := s.map Char.toUpper

/-- rgbFToHexS(r, g, b, trc): the "#RRGGBB" hex notation of the color. -/
def rgbFToHexS (r g b : ℝ) (trc : Str) : Str :=
  let rgb := rgbFToInt8 r g b trc
  '#' :: (upperStr (zfill2 (pyHexSlice rgb.1)) ++ upperStr (zfill2 (pyHexSlice rgb.2.1))
    ++ upperStr (zfill2 (pyHexSlice rgb.2.2)))

/-- hexSToRgbF(syntax, trc): parse "#RGB" (nibbles duplicated) or "#RRGGBB";
none for any other length or when a channel slice fails base-16 parsing. -/
def hexSToRgbF (stx : Str) (trc : Str) : Option (ℝ × ℝ × ℝ) :=
  if ¬(startsW stx ['#'] ∧ (stx.length = 4 ∨ stx.length = 7)) then none
  else
    let rS := if stx.length = 4 then (stx.drop 1).take 1 ++ (stx.drop 1).take 1
              else (stx.drop 1).take 2
    let gS := if stx.length = 4 then (stx.drop 2).take 1 ++ (stx.drop 2).take 1
              else (stx.drop 3).take 2
    let bS := if stx.length = 4 then (stx.drop 3).take 1 ++ (stx.drop 3).take 1
              else (stx.drop 5).take 2
    match pyIntBase16 rS, pyIntBase16 gS, pyIntBase16 bS with
    | some ri, some gi, some bi =>
      let r : ℝ := (ri : ℝ) / 255
      let g : ℝ := (gi : ℝ) / 255
      let b : ℝ := (bi : ℝ) / 255
      if trc = strSRGB then some (r, g, b)
      else some (componentToLinear r, componentToLinear g, componentToLinear b)
    | _, _, _ => none

/-- angleStoDeg(a): CSS angle token to degrees; deg/grad/rad/turn suffixes or a
bare number; negative results get (d mod 360) + 360 added, nonnegative results
are returned as is; none when the numeric part fails to parse. -/
def angleStoDeg (a : Str) : Option ℝ :=
  let d : Option ℝ :=
    if endsW a ['d', 'e', 'g'] then (pyFloatQ (a.take (a.length - 3))).map (fun q : ℚ => (q : ℝ))
    else if endsW a ['g', 'r', 'a', 'd'] then
      (pyFloatQ (a.take (a.length - 4))).map (fun q : ℚ => (q : ℝ) / 10 * 9)
    else if endsW a ['r', 'a', 'd'] then
      (pyFloatQ (a.take (a.length - 3))).map (fun q : ℚ => (q : ℝ) * (180 / Real.pi))
    else if endsW a ['t', 'u', 'r', 'n'] then
      (pyFloatQ (a.take (a.length - 4))).map (fun q : ℚ => (q : ℝ) * 360)
    else (pyFloatQ a).map (fun q : ℚ => (q : ℝ))
  d.map (fun d => if d < 0 then pyMod d 360 + 360 else d)

/-- The conversion tail shared after parsing "oklab(L a b)": Oklab to linear,
optional sRGB encode, final clamp of each channel to [0,1]. -/
def oklabValToRgbF (okL okA okB : ℝ) (trc : Str) : ℝ × ℝ × ℝ :=
  let rgb := oklabToLinear okL okA okB
  let r := if trc = strSRGB then componentToSRGB rgb.1 else rgb.1
  let g := if trc = strSRGB then componentToSRGB rgb.2.1 else rgb.2.1
  let b := if trc = strSRGB then componentToSRGB rgb.2.2 else rgb.2.2
  (clampF r 1 0, clampF g 1 0, clampF b 1 0)

/-- oklabSToRgbF(syntax, trc): parse "oklab(L a b)" with optional percent
suffixes, clamp L to [0,1] and a, b to [-0.4, 0.4], convert, clamp to [0,1]. -/
def oklabSToRgbF (stx : Str) (trc : Str) : Option (ℝ × ℝ × ℝ) :=
  if ¬ startsW stx ['o', 'k', 'l', 'a', 'b'] then none
  else
    match pySplitWS (pyStrip (stx.drop 5) ['(', ' ', ')']) with
    | [okLs, okAs, okBs] =>
      let pL : Option ℝ :=
        if endsW okLs ['%'] then
          (pyFloatQ (okLs.take (okLs.length - 1))).map (fun q : ℚ => clampF ((q : ℝ) / 100) 1 0)
        else (pyFloatQ okLs).map (fun q : ℚ => clampF (q : ℝ) 1 0)
      let pA : Option ℝ :=
        if endsW okAs ['%'] then
          (pyFloatQ (okAs.take (okAs.length - 1))).map (fun q : ℚ => clampF ((q : ℝ) / 250) 0.4 (-0.4))
        else (pyFloatQ okAs).map (fun q : ℚ => clampF (q : ℝ) 0.4 (-0.4))
      let pB : Option ℝ :=
        if endsW okBs ['%'] then
          (pyFloatQ (okBs.take (okBs.length - 1))).map (fun q : ℚ => clampF ((q : ℝ) / 250) 0.4 (-0.4))
        else (pyFloatQ okBs).map (fun q : ℚ => clampF (q : ℝ) 0.4 (-0.4))
      match pL, pA, pB with
      | some okL, some okA, some okB => some (oklabValToRgbF okL okA okB trc)
      | _, _, _ => none
    | _ => none

/-- oklchSToRgbF(syntax, trc): parse "oklch(L C H)" with optional percent
suffix on L and C and an angle token for H; L clamped to [0,1], C to [0, 0.4]. -/
def oklchSToRgbF (stx : Str) (trc : Str) : Option (ℝ × ℝ × ℝ) :=
  if ¬ startsW stx ['o', 'k', 'l', 'c', 'h'] then none
  else
    match pySplitWS (pyStrip (stx.drop 5) ['(', ' ', ')']) with
    | [ls, cs, hs] =>
      let pL : Option ℝ :=
        if endsW ls ['%'] then
          (pyFloatQ (ls.take (ls.length - 1))).map (fun q : ℚ => clampF ((q : ℝ) / 100) 1 0)
        else (pyFloatQ ls).map (fun q : ℚ => clampF (q : ℝ) 1 0)
      let pC : Option ℝ :=
        if endsW cs ['%'] then
          (pyFloatQ (cs.take (cs.length - 1))).map (fun q : ℚ => clampF ((q : ℝ) / 250) 0.4 0)
        else (pyFloatQ cs).map (fun q : ℚ => clampF (q : ℝ) 0.4 0)
      match pL, pC, angleStoDeg hs with
      | some l, some c, some h => some (oklchToRgbF (l * 100) c h (-1) trc)
      | _, _, _ => none
    | _ => none

/-- The Oklab triple of an RGB input after the transfer-mode normalization
shared by the rgbFTo... conversions. -/
def oklabOf (r g b : ℝ) (trc : Str) : ℝ × ℝ × ℝ :=
  linearToOklab (if trc = strSRGB then componentToLinear r else r)
    (if trc = strSRGB then componentToLinear g else g)
    (if trc = strSRGB then componentToLinear b else b)

/-- The Oklab chroma magnitude of an RGB input, as computed by the
rgbFTo... conversions before their neutral-color test. -/
def chromaOf (r g b : ℝ) (trc : Str) : ℝ :=
  (cartesianToPolar (oklabOf r g b trc).2.1 (oklabOf r g b trc).2.2).1

end Convert

namespace Convert

/-- clampF with the default bounds keeps its output in the unit interval. -/
lemma clampF_mem_unit (f : ℝ) : clampF f 1 0 ∈ Set.Icc (0 : ℝ) 1 := by
  unfold clampF
  split_ifs with h1 h2
  · exact ⟨le_refl 0, zero_le_one⟩
  · exact ⟨zero_le_one, le_refl 1⟩
  · push_neg at h1 h2
    exact ⟨h1, by nlinarith [h2.1 rfl]⟩

/-- The sRGB decode maps the unit interval into itself. -/
lemma componentToLinear_mem_unit {c : ℝ} (h0 : 0 ≤ c) (h1 : c ≤ 1) :
    componentToLinear c ∈ Set.Icc (0 : ℝ) 1 := by
  unfold componentToLinear ALPHA GAMMA PHI
  split_ifs with h
  · have hb0 : (0:ℝ) ≤ (c + 0.055) / (1 + 0.055) := by
      apply div_nonneg <;> linarith
    have hb1 : (c + 0.055) / (1 + 0.055) ≤ 1 := by
      rw [div_le_one (by norm_num)]; linarith
    exact ⟨Real.rpow_nonneg hb0 _, Real.rpow_le_one hb0 hb1 (by norm_num)⟩
  · constructor
    · positivity
    · rw [div_le_one (by norm_num)]; linarith

end Convert

/-- A display-ready RGB triple: every component within [0, 1]. -/
abbrev inUnit (t : ℝ × ℝ × ℝ) : Prop :=
  t.1 ∈ Set.Icc (0:ℝ) 1 ∧ t.2.1 ∈ Set.Icc (0:ℝ) 1 ∧ t.2.2 ∈ Set.Icc (0:ℝ) 1

namespace Convert

/-- A triple of default clamps is always in the unit cube. -/
lemma inUnit_clamp3 (a b c : ℝ) : inUnit (clampF a 1 0, clampF b 1 0, clampF c 1 0) :=
  ⟨clampF_mem_unit a, clampF_mem_unit b, clampF_mem_unit c⟩

/-- The triple built by hSectorToRgbF stays in the unit cube when its three
inputs do, for every sector and transfer tag. -/
lemma hSectorToRgbF_mem_unit (k : ℤ) (v m x : ℝ) (trc : Str)
    (hv : v ∈ Set.Icc (0:ℝ) 1) (hm : m ∈ Set.Icc (0:ℝ) 1) (hx : x ∈ Set.Icc (0:ℝ) 1) :
    inUnit (hSectorToRgbF k v m x trc) := by
  unfold hSectorToRgbF
  split_ifs <;>
    first
      | exact ⟨hx, hv, hm⟩ | exact ⟨hm, hv, hx⟩ | exact ⟨hm, hx, hv⟩
      | exact ⟨hx, hm, hv⟩ | exact ⟨hv, hm, hx⟩ | exact ⟨hv, hx, hm⟩
      | exact ⟨componentToLinear_mem_unit hx.1 hx.2, componentToLinear_mem_unit hv.1 hv.2,
          componentToLinear_mem_unit hm.1 hm.2⟩
      | exact ⟨componentToLinear_mem_unit hm.1 hm.2, componentToLinear_mem_unit hv.1 hv.2,
          componentToLinear_mem_unit hx.1 hx.2⟩
      | exact ⟨componentToLinear_mem_unit hm.1 hm.2, componentToLinear_mem_unit hx.1 hx.2,
          componentToLinear_mem_unit hv.1 hv.2⟩
      | exact ⟨componentToLinear_mem_unit hx.1 hx.2, componentToLinear_mem_unit hm.1 hm.2,
          componentToLinear_mem_unit hv.1 hv.2⟩
      | exact ⟨componentToLinear_mem_unit hv.1 hv.2, componentToLinear_mem_unit hm.1 hm.2,
          componentToLinear_mem_unit hx.1 hx.2⟩
      | exact ⟨componentToLinear_mem_unit hv.1 hv.2, componentToLinear_mem_unit hx.1 hx.2,
          componentToLinear_mem_unit hm.1 hm.2⟩

/-- hSectorToRgbF collapses to a constant triple when max, med and min agree. -/
lemma hSectorToRgbF_const (k : ℤ) (w : ℝ) (trc : Str) :
    hSectorToRgbF k w w w trc =
      if trc = strSRGB then (w, w, w)
      else (componentToLinear w, componentToLinear w, componentToLinear w) := by
  unfold hSectorToRgbF
  split_ifs <;> rfl

/-- For a nonnegative argument, pyInt is the floor. -/
lemma pyInt_of_nonneg {x : ℝ} (hx : 0 ≤ x) : pyInt x = ⌊x⌋ := by
  unfold pyInt
  rw [if_neg (not_lt.mpr hx)]

/-- The fractional part x - floor x lies in [0, 1). -/
lemma sub_floor_mem {x : ℝ} : 0 ≤ x - (⌊x⌋ : ℝ) ∧ x - (⌊x⌋ : ℝ) < 1 :=
  ⟨by linarith [Int.floor_le x], by linarith [Int.lt_floor_add_one x]⟩

/-- Bounds for the tail of the main branch of hcyToRgbF: once the hue deviation
d, the per-hue luma coefficient yHue and the luma y3 are bounded and the chroma
argument respects the supplied limit u (or u is the -1 clip sentinel), the
produced RGB triple is in the unit cube. -/
lemma hcy_tail_mem (k : ℤ) (d yHue y3 c u : ℝ) (trc : Str) (luma : Bool)
    (hd0 : 0 ≤ d) (hd1 : d ≤ 1) (hy0 : 0 ≤ y3) (hy1 : y3 ≤ 1)
    (hyh0 : 0 < yHue) (hyh1 : yHue < 1) (hc : 0 ≤ c) (hu : u = -1 ∨ (0 ≤ u ∧ c ≤ u)) :
    inUnit (
      let cMax := if y3 ≤ yHue then y3 / yHue else (1 - y3) / (1 - yHue)
      let c2 := if u = -1 then (if c / 100 > cMax then cMax else c / 100)
                else (if u ≠ 0 then c / u else 0) * cMax
      let m := y3 - c2 * yHue
      let x := y3 - c2 * (yHue - d)
      let v := y3 + c2 * (1 - yHue)
      if luma = true then hSectorToRgbF k v m x trc else hSectorToRgbF k v m x strSRGB) := by
  dsimp only
  set cMax : ℝ := if y3 ≤ yHue then y3 / yHue else (1 - y3) / (1 - yHue) with hcMax
  set c2 : ℝ := if u = -1 then (if c / 100 > cMax then cMax else c / 100)
      else (if u ≠ 0 then c / u else 0) * cMax with hc2def
  have hcM0 : 0 ≤ cMax := by
    rw [hcMax]
    split_ifs with hle
    · positivity
    · apply div_nonneg <;> linarith
  have hc20 : 0 ≤ c2 := by
    rw [hc2def]
    split_ifs with h1 h2 h3
    · exact hcM0
    · positivity
    · rcases hu with h | h
      · exact absurd h h1
      · have hu0 : 0 < u := lt_of_le_of_ne h.1 (Ne.symm h3)
        exact mul_nonneg (div_nonneg hc (le_of_lt hu0)) hcM0
    · simp
  have hc2M : c2 ≤ cMax := by
    rw [hc2def]
    split_ifs with h1 h2 h3
    · exact le_refl _
    · exact not_lt.mp h2
    · rcases hu with h | h
      · exact absurd h h1
      · have hu0 : 0 < u := lt_of_le_of_ne h.1 (Ne.symm h3)
        have hs1 : c / u ≤ 1 := (div_le_one hu0).mpr h.2
        have hs0 : 0 ≤ c / u := div_nonneg hc (le_of_lt hu0)
        nlinarith
    · simpa using hcM0
  -- the key gamut facts: chroma never pushes min below 0 or max above 1
  have hm0 : 0 ≤ y3 - c2 * yHue := by
    have : c2 * yHue ≤ y3 := by
      rw [hcMax] at hc2M
      by_cases hle : y3 ≤ yHue
      · rw [if_pos hle] at hc2M
        have := mul_le_mul_of_nonneg_right hc2M (le_of_lt hyh0)
        rwa [div_mul_cancel₀ _ (ne_of_gt hyh0)] at this
      · rw [if_neg hle] at hc2M
        push_neg at hle
        have hcM1 : cMax ≤ 1 := by
          rw [hcMax, if_neg (not_le.mpr hle)]
          rw [div_le_one (by linarith)]
          linarith
        have hc21 : c2 ≤ 1 := hc2M.trans ((div_le_one (by linarith)).mpr (by linarith))
        nlinarith
    linarith
  have hv1 : y3 + c2 * (1 - yHue) ≤ 1 := by
    rw [hcMax] at hc2M
    by_cases hle : y3 ≤ yHue
    · rw [if_pos hle] at hc2M
      have h1 : c2 * (1 - yHue) ≤ (y3 / yHue) * (1 - yHue) :=
        mul_le_mul_of_nonneg_right hc2M (by linarith)
      have h2 : y3 + (y3 / yHue) * (1 - yHue) = y3 / yHue := by
        field_simp
        ring
      have h3 : y3 / yHue ≤ 1 := (div_le_one hyh0).mpr hle
      linarith
    · rw [if_neg hle] at hc2M
      push_neg at hle
      have h1 : c2 * (1 - yHue) ≤ ((1 - y3) / (1 - yHue)) * (1 - yHue) :=
        mul_le_mul_of_nonneg_right hc2M (by linarith)
      have h2 : ((1 - y3) / (1 - yHue)) * (1 - yHue) = 1 - y3 :=
        div_mul_cancel₀ _ (by intro h0; rw [sub_eq_zero] at h0; linarith)
      linarith
  have hcd : 0 ≤ c2 * d := mul_nonneg hc20 hd0
  have hcd1 : 0 ≤ c2 * (1 - d) := mul_nonneg hc20 (by linarith)
  have hcy3 : 0 ≤ c2 * yHue := mul_nonneg hc20 (le_of_lt hyh0)
  have hcy1 : 0 ≤ c2 * (1 - yHue) := mul_nonneg hc20 (by linarith)
  have hxm : y3 - c2 * yHue ≤ y3 - c2 * (yHue - d) := by nlinarith
  have hxv : y3 - c2 * (yHue - d) ≤ y3 + c2 * (1 - yHue) := by nlinarith
  have hmem : ∀ trc2 : Str, inUnit (hSectorToRgbF k (y3 + c2 * (1 - yHue))
      (y3 - c2 * yHue) (y3 - c2 * (yHue - d)) trc2) := by
    intro trc2
    apply hSectorToRgbF_mem_unit
    · exact Set.mem_Icc.mpr ⟨by linarith, hv1⟩
    · exact Set.mem_Icc.mpr ⟨hm0, by linarith⟩
    · exact Set.mem_Icc.mpr ⟨by linarith, by linarith⟩
  cases luma
  · rw [if_neg (by decide : ¬(false = true))]
    exact hmem strSRGB
  · rw [if_pos rfl]
    exact hmem trc

/-- The interpolated per-hue luma coefficient is strictly between 0 and 1 for
every sector and every deviation d in [0, 1]. -/
lemma yHue_mem (k : ℤ) (d : ℝ) (hd0 : 0 ≤ d) (hd1 : d ≤ 1) :
    (0 < (if k = 1 then Y709G + Y709R * d else if k = 2 then Y709G + Y709B * d
      else if k = 3 then Y709B + Y709G * d else if k = 4 then Y709B + Y709R * d
      else if k = 5 then Y709R + Y709B * d else Y709R + Y709G * d)) ∧
    ((if k = 1 then Y709G + Y709R * d else if k = 2 then Y709G + Y709B * d
      else if k = 3 then Y709B + Y709G * d else if k = 4 then Y709B + Y709R * d
      else if k = 5 then Y709R + Y709B * d else Y709R + Y709G * d) < 1) := by
  unfold Y709R Y709G Y709B
  split_ifs <;> constructor <;> nlinarith

/-- hsvToRgbF stays in the unit cube on the documented input ranges. -/
lemma hsvToRgbF_mem (h s v : ℝ) (trc : Str) (hh : 0 ≤ h) (hs0 : 0 ≤ s) (hs1 : s ≤ 100)
    (hv0 : 0 ≤ v) (hv1 : v ≤ 100) : inUnit (hsvToRgbF h s v trc) := by
  unfold hsvToRgbF
  dsimp only
  have h60 : (0:ℝ) ≤ h / 60 := by positivity
  rw [pyInt_of_nonneg h60]
  have hf := sub_floor_mem (x := h / 60)
  have hv2 : 0 ≤ v / 100 ∧ v / 100 ≤ 1 := ⟨by positivity, by linarith⟩
  have hs2 : 0 ≤ s / 100 ∧ s / 100 ≤ 1 := ⟨by positivity, by linarith⟩
  set d : ℝ := if ⌊h / 60⌋ % 2 ≠ 0 then h / 60 - (⌊h / 60⌋ : ℝ)
      else 1 - (h / 60 - (⌊h / 60⌋ : ℝ)) with hd_def
  have hd : 0 ≤ d ∧ d ≤ 1 := by
    rw [hd_def]; split_ifs <;> constructor <;> linarith [hf.1, hf.2]
  clear_value d
  have hds0 : 0 ≤ d * (s / 100) := mul_nonneg hd.1 hs2.1
  have hds1 : d * (s / 100) ≤ 1 := mul_le_one₀ hd.2 hs2.1 hs2.2
  apply hSectorToRgbF_mem_unit
  · exact Set.mem_Icc.mpr ⟨hv2.1, hv2.2⟩
  · exact Set.mem_Icc.mpr ⟨mul_nonneg hv2.1 (by linarith),
      mul_le_one₀ hv2.2 (by linarith) (by linarith)⟩
  · exact Set.mem_Icc.mpr ⟨mul_nonneg hv2.1 (by linarith),
      mul_le_one₀ hv2.2 (by linarith) (by linarith)⟩

/-- hslToRgbF stays in the unit cube on the documented input ranges. -/
lemma hslToRgbF_mem (h s l : ℝ) (trc : Str) (hh : 0 ≤ h) (hs0 : 0 ≤ s) (hs1 : s ≤ 100)
    (hl0 : 0 ≤ l) (hl1 : l ≤ 100) : inUnit (hslToRgbF h s l trc) := by
  unfold hslToRgbF
  dsimp only
  have h60 : (0:ℝ) ≤ h / 60 := by positivity
  rw [pyInt_of_nonneg h60]
  have hf := sub_floor_mem (x := h / 60)
  have hl2 : 0 ≤ l / 100 ∧ l / 100 ≤ 1 := ⟨by positivity, by linarith⟩
  have hs2 : 0 ≤ s / 100 ∧ s / 100 ≤ 1 := ⟨by positivity, by linarith⟩
  set d : ℝ := if ⌊h / 60⌋ % 2 ≠ 0 then h / 60 - (⌊h / 60⌋ : ℝ)
      else 1 - (h / 60 - (⌊h / 60⌋ : ℝ)) with hd_def
  have hd : 0 ≤ d ∧ d ≤ 1 := by
    rw [hd_def]; split_ifs <;> constructor <;> linarith [hf.1, hf.2]
  clear_value d
  set V : ℝ := if l / 100 < 0.5 then l / 100 * (1 + s / 100)
      else s / 100 * (1 - l / 100) + l / 100 with hV_def
  have hV : (0 ≤ V ∧ V ≤ 1) ∧ l / 100 ≤ V ∧ 0 ≤ 2 * (l / 100) - V := by
    rw [hV_def]; split_ifs with hcond
    · refine ⟨⟨mul_nonneg hl2.1 (by linarith), ?_⟩, ?_, ?_⟩ <;>
        nlinarith [hl2.1, hs2.1, hs2.2]
    · push_neg at hcond
      refine ⟨⟨by nlinarith [mul_nonneg hs2.1 (by linarith [hl2.2] : (0:ℝ) ≤ 1 - l / 100)], ?_⟩,
        ?_, ?_⟩ <;> nlinarith [hs2.1, hs2.2, hl2.1, hl2.2]
  clear_value V
  have hvm : 0 ≤ V - (2 * (l / 100) - V) := by linarith [hV.2.1]
  have hp1 : d * (V - (2 * (l / 100) - V)) ≤ V - (2 * (l / 100) - V) :=
    mul_le_of_le_one_left hvm hd.2
  have hp0 : 0 ≤ d * (V - (2 * (l / 100) - V)) := mul_nonneg hd.1 hvm
  apply hSectorToRgbF_mem_unit
  · exact Set.mem_Icc.mpr ⟨hV.1.1, hV.1.2⟩
  · exact Set.mem_Icc.mpr ⟨by linarith [hV.2.2], by linarith [hV.2.1, hl2.2]⟩
  · exact Set.mem_Icc.mpr ⟨by linarith [hV.2.2], by linarith [hV.1.2]⟩

/-- hcyToRgbF stays in the unit cube on the documented input ranges, for both
the clip (u = -1) and the ratio-rescale (0 ≤ u, c ≤ u) chroma policies. -/
lemma hcyToRgbF_mem (h c y u : ℝ) (trc : Str) (luma : Bool) (hh : 0 ≤ h) (hc : 0 ≤ c)
    (hy0 : 0 ≤ y) (hy1 : y ≤ 100) (hu : u = -1 ∨ (0 ≤ u ∧ c ≤ u)) :
    inUnit (hcyToRgbF h c y u trc luma) := by
  have hy : y ≠ -1 := by intro h0; rw [h0] at hy0; linarith
  have hy100 : ¬(y / 100 = -1) := by intro h0; nlinarith
  unfold hcyToRgbF
  dsimp only
  rw [if_pos hy]
  by_cases hE : c = 0 ∨ y / 100 = 0 ∨ y / 100 = 1
  · rw [if_pos hE]
    set w : ℝ := if luma = true ∧ trc = strLinear then componentToLinear (y / 100)
        else y / 100 with hw
    have hwm : w ∈ Set.Icc (0:ℝ) 1 := by
      rw [hw]; split_ifs
      · exact componentToLinear_mem_unit (by positivity) (by linarith)
      · exact Set.mem_Icc.mpr ⟨by positivity, by linarith⟩
    exact ⟨hwm, hwm, hwm⟩
  · rw [if_neg hE, if_neg hy100]
    have h60 : (0:ℝ) ≤ h / 60 := by positivity
    rw [pyInt_of_nonneg h60]
    have hf := sub_floor_mem (x := h / 60)
    have hD : 0 ≤ (if ⌊h / 60⌋ % 2 = 0 then h / 60 - (⌊h / 60⌋ : ℝ)
          else 1 - (h / 60 - (⌊h / 60⌋ : ℝ))) ∧
        (if ⌊h / 60⌋ % 2 = 0 then h / 60 - (⌊h / 60⌋ : ℝ)
          else 1 - (h / 60 - (⌊h / 60⌋ : ℝ))) ≤ 1 := by
      split_ifs <;> constructor <;> linarith [hf.1, hf.2]
    have hYH := yHue_mem ⌊h / 60⌋ _ hD.1 hD.2
    exact hcy_tail_mem _ _ _ _ _ _ trc luma hD.1 hD.2 (by positivity) (by linarith)
      hYH.1 hYH.2 hc hu

/-- oklchToRgbF always returns a clamped triple. -/
lemma oklchToRgbF_mem (l c h u : ℝ) (trc : Str) : inUnit (oklchToRgbF l c h u trc) :=
  inUnit_clamp3 _ _ _

/-- The tail conversion of the oklab() parser always returns a clamped triple. -/
lemma oklabValToRgbF_mem (okL okA okB : ℝ) (trc : Str) :
    inUnit (oklabValToRgbF okL okA okB trc) :=
  inUnit_clamp3 _ _ _

/-- okhclToRgbF always returns a clamped triple. -/
lemma okhclToRgbF_mem (h c l u : ℝ) (trc : Str) : inUnit (okhclToRgbF h c l u trc) :=
  inUnit_clamp3 _ _ _

/-- okhsvToRgbF returns black or a clamped triple. -/
lemma okhsvToRgbF_mem (h s v : ℝ) (trc : Str) : inUnit (okhsvToRgbF h s v trc) := by
  unfold okhsvToRgbF
  dsimp only
  by_cases h0 : v / 100 = 0
  · rw [if_pos h0]
    exact ⟨Set.mem_Icc.mpr ⟨le_refl 0, zero_le_one⟩, Set.mem_Icc.mpr ⟨le_refl 0, zero_le_one⟩,
      Set.mem_Icc.mpr ⟨le_refl 0, zero_le_one⟩⟩
  · rw [if_neg h0]
    exact inUnit_clamp3 _ _ _

/-- okhslToRgbF returns pure black or white at the lightness extremes and a
clamped triple otherwise. -/
lemma okhslToRgbF_mem (h s l : ℝ) (trc : Str) : inUnit (okhslToRgbF h s l trc) := by
  unfold okhslToRgbF
  dsimp only
  by_cases h0 : l / 100 = 0 ∨ l / 100 = 1
  · rw [if_pos h0]
    rcases h0 with h0 | h0 <;> rw [h0]
    · exact ⟨Set.mem_Icc.mpr ⟨le_refl 0, zero_le_one⟩, Set.mem_Icc.mpr ⟨le_refl 0, zero_le_one⟩,
        Set.mem_Icc.mpr ⟨le_refl 0, zero_le_one⟩⟩
    · exact ⟨Set.mem_Icc.mpr ⟨zero_le_one, le_refl 1⟩, Set.mem_Icc.mpr ⟨zero_le_one, le_refl 1⟩,
        Set.mem_Icc.mpr ⟨zero_le_one, le_refl 1⟩⟩
  · rw [if_neg h0]
    exact inUnit_clamp3 _ _ _

end Convert

/-- C9: roundZero(n, d) raises a validation error exactly when d is negative
(a non-integer d is excluded by typing), and for d ≥ 0 it truncates n toward
zero to d decimal places: the result is floor(|n| * 10^d) / 10^d carrying the
sign of n. -/
theorem claim_C9_roundZero_validation (n : ℝ) (d : ℤ) :
    ((Convert.roundZeroChecked n d).toOption = none ↔ d < 0) ∧
    (0 ≤ d → Convert.roundZeroChecked n d =
      .ok ((if n < 0 then (-1:ℝ) else 1) * (⌊|n| * (10:ℝ) ^ d⌋ : ℝ) / (10:ℝ) ^ d)) := by
  unfold Convert.roundZeroChecked
  constructor
  · by_cases hd : d < 0
    · simp [hd, Except.toOption]
    · simp only [if_neg hd]
      by_cases hd0 : d = 0 <;> simp [hd0, Except.toOption, hd]
  · intro hd
    have hd2 : ¬d < 0 := not_lt.mpr hd
    simp only [if_neg hd2]
    by_cases hd0 : d = 0
    · subst hd0
      simp only [if_pos rfl, zpow_zero, mul_one, div_one, Except.ok.injEq, ite_self]
      ring
    · simp only [if_neg hd0, Except.ok.injEq]
      ring

/-- Witness for C9 at n = -2.37, d = 1 (value branch) and d = -1 (error branch). -/
theorem claim_C9_witness :
    Convert.roundZeroChecked (-2.37) 1 = .ok (-2.3) ∧
    (Convert.roundZeroChecked (-2.37) (-1)).toOption = none := by
  constructor
  · have h := (claim_C9_roundZero_validation (-2.37) 1).2 (by norm_num)
    rw [h]
    have habs : |(-2.37 : ℝ)| = 2.37 := by rw [abs_of_neg] <;> norm_num
    have hfl : ⌊|(-2.37 : ℝ)| * (10:ℝ) ^ (1:ℤ)⌋ = 23 := by
      rw [habs]; norm_num
    rw [hfl]
    norm_num
  · exact ((claim_C9_roundZero_validation (-2.37) (-1)).1).mpr (by norm_num)

/-- C8: monochrome idempotence. With zero saturation, hsvToRgbF returns the
neutral triple with all components equal to v scaled from percent (for sRGB
output exactly v/100; for any other transfer tag the three components are the
common decoded value); with zero chroma and a transfer-mode-consistent luma,
hcyToRgbF returns the neutral triple (y/100, y/100, y/100). -/
theorem claim_C8_monochrome :
    (∀ h v : ℝ, Convert.hsvToRgbF h 0 v strSRGB = (v / 100, v / 100, v / 100)) ∧
    (∀ h v : ℝ, ∀ trc : Str, trc ≠ strSRGB →
      Convert.hsvToRgbF h 0 v trc =
        (Convert.componentToLinear (v / 100), Convert.componentToLinear (v / 100),
         Convert.componentToLinear (v / 100))) ∧
    (∀ h y u : ℝ, ∀ trc : Str, ∀ luma : Bool, y ≠ -1 →
      (luma = false ∨ trc = strSRGB) →
      Convert.hcyToRgbF h 0 y u trc luma = (y / 100, y / 100, y / 100)) := by
  refine ⟨?_, ?_, ?_⟩
  · intro h v
    unfold Convert.hsvToRgbF
    simp only [mul_zero, sub_zero, zero_div, mul_one]
    rw [Convert.hSectorToRgbF_const]
    simp
  · intro h v trc htrc
    unfold Convert.hsvToRgbF
    simp only [mul_zero, sub_zero, zero_div, mul_one]
    rw [Convert.hSectorToRgbF_const]
    simp [htrc]
  · intro h y u trc luma hy hcons
    unfold Convert.hcyToRgbF
    simp only [if_pos hy]
    rw [if_pos (show True ∨ y / 100 = 0 ∨ y / 100 = 1 from Or.inl trivial)]
    have hnl : ¬(luma = true ∧ trc = strLinear) := by
      rcases hcons with h1 | h1
      · rintro ⟨h2, -⟩; rw [h1] at h2; exact absurd h2 (by decide)
      · rintro ⟨-, h2⟩; rw [h1] at h2; exact absurd h2 (by decide)
    rw [if_neg hnl]

/-- Witness for C8 at h = 123, v = 40 (sRGB), h = 200, v = 40 (linear) and
h = 301.5, y = 62, u = 33 (HCY with luma = false). -/
theorem claim_C8_witness :
    Convert.hsvToRgbF 123 0 40 strSRGB = (0.4, 0.4, 0.4) ∧
    Convert.hsvToRgbF 200 0 40 strLinear =
      (Convert.componentToLinear 0.4, Convert.componentToLinear 0.4,
       Convert.componentToLinear 0.4) ∧
    Convert.hcyToRgbF 301.5 0 62 33 strSRGB false = (0.62, 0.62, 0.62) := by
  refine ⟨?_, ?_, ?_⟩
  · have h := claim_C8_monochrome.1 123 40
    rw [h]; norm_num
  · have h := claim_C8_monochrome.2.1 200 40 strLinear (by decide)
    rw [h]; norm_num
  · have h := claim_C8_monochrome.2.2 301.5 62 33 strSRGB false (by norm_num) (Or.inl rfl)
    rw [h]; norm_num

namespace Convert

/-- A string always ends with its own appended suffix. -/
lemma endsW_append (t s : Str) : endsW (t ++ s) s = true := by
  unfold endsW
  have h1 : (t ++ s).length - s.length = t.length := by simp
  rw [h1, List.drop_left]
  simp

/-- Testing a suffix no longer than the appended block only inspects the block. -/
lemma endsW_append_longer (t s1 s2 : Str) (hle : s1.length ≤ s2.length) :
    endsW (t ++ s2) s1 = endsW s2 s1 := by
  unfold endsW
  have h1 : (t ++ s2).length - s1.length = t.length + (s2.length - s1.length) := by
    simp only [List.length_append]
    omega
  rw [h1, List.drop_append]

/-- The tested suffix of t ++ "rad" against "grad" is decided by the last
character of t. -/
lemma endsW_rad_grad (t : Str) (hg : t.getLast? ≠ some 'g') :
    endsW (t ++ ['r', 'a', 'd']) ['g', 'r', 'a', 'd'] = false := by
  rcases List.eq_nil_or_concat t with h | ⟨t2, c, h⟩
  · subst h
    decide
  · subst h
    have hc : c ≠ 'g' := by
      intro h3
      apply hg
      simp [h3, List.getLast?_concat]
    rw [List.concat_eq_append]
    unfold endsW
    have h1 : (t2 ++ [c] ++ ['r', 'a', 'd']).length - ['g', 'r', 'a', 'd'].length
        = t2.length := by simp
    rw [h1, List.append_assoc, List.drop_left, List.singleton_append]
    rw [beq_eq_false_iff_ne]
    intro h3
    exact hc (List.cons_eq_cons.mp h3).1

/-- Evaluation rule for pyFloatQ from a computed decomposition. -/
lemma pyFloatQ_eval (s : Str) (p : ℤ × ℕ × ℕ × ℕ × ℤ) (hp : pyFloatParts s = some p) :
    pyFloatQ s = some (floatVal p) := by
  unfold pyFloatQ
  rw [hp]
  rfl

/-- Failure rule for pyFloatQ from a failed decomposition. -/
lemma pyFloatQ_none (s : Str) (hp : pyFloatParts s = none) : pyFloatQ s = none := by
  unfold pyFloatQ
  rw [hp]
  rfl

/-- The rpow square root of a product y * y recovers a nonnegative y. -/
lemma rpow_half_mul_self {y : ℝ} (hy : 0 ≤ y) : (y * y) ^ ((1 : ℝ) / 2) = y := by
  have h1 : y * y = y ^ (2 : ℝ) := by
    rw [show (2 : ℝ) = ((2 : ℕ) : ℝ) by norm_num, Real.rpow_natCast]
    ring
  rw [h1, ← Real.rpow_mul hy]
  norm_num

/-- The zero RGB input maps to the Oklab origin. -/
lemma linearToOklab_zero : linearToOklab 0 0 0 = (0, 0, 0) := by
  unfold linearToOklab
  dsimp only
  norm_num [Real.zero_rpow]

/-- The toe compression fixes 0. -/
lemma toe_zero : toe 0 = 0 := by
  unfold toe
  have h1 : (K3 * 0 - K1) * (K3 * 0 - K1) + 4 * K2 * K3 * 0 = K1 * K1 := by ring
  rw [h1, rpow_half_mul_self (by unfold K1; norm_num)]
  ring

/-- The polar form of the Cartesian origin. -/
lemma cartesianToPolar_zero : cartesianToPolar 0 0 = (0, 0) := by
  unfold cartesianToPolar atan2
  dsimp only
  have h0 : Complex.mk 0 0 = (0 : ℂ) := rfl
  rw [h0, Complex.arg_zero]
  norm_num

/-- Python round of zero is zero at every precision. -/
lemma pyRound_zero (d : ℕ) : pyRound 0 d = 0 := by
  unfold pyRound pyRoundEven
  norm_num

/-- A hex digit is not whitespace, a sign, an x/X, or a zero prefix helper. -/
lemma hexChar_class (c : Char) (v : ℕ) (h : hexVal c = some v) :
    pyIsWS c = false ∧ c ≠ '+' ∧ c ≠ '-' ∧ c ≠ 'x' ∧ c ≠ 'X' := by
  unfold hexVal at h
  split_ifs at h with h1 h2 h3
  · refine ⟨?_, ?_, ?_, ?_, ?_⟩
    · simp only [pyIsWS, Bool.or_eq_false_iff, decide_eq_false_iff_not]
      refine ⟨⟨⟨⟨⟨?_, ?_⟩, ?_⟩, ?_⟩, ?_⟩, ?_⟩ <;> (rintro rfl; revert h1; decide)
    all_goals (rintro rfl; revert h1; decide)
  · refine ⟨?_, ?_, ?_, ?_, ?_⟩
    · simp only [pyIsWS, Bool.or_eq_false_iff, decide_eq_false_iff_not]
      refine ⟨⟨⟨⟨⟨?_, ?_⟩, ?_⟩, ?_⟩, ?_⟩, ?_⟩ <;> (rintro rfl; revert h2; decide)
    all_goals (rintro rfl; revert h2; decide)
  · refine ⟨?_, ?_, ?_, ?_, ?_⟩
    · simp only [pyIsWS, Bool.or_eq_false_iff, decide_eq_false_iff_not]
      refine ⟨⟨⟨⟨⟨?_, ?_⟩, ?_⟩, ?_⟩, ?_⟩, ?_⟩ <;> (rintro rfl; revert h3; decide)
    all_goals (rintro rfl; revert h3; decide)

/-- Stripping whitespace fixes a two-character non-whitespace string. -/
lemma pyStripWS_pair (c d : Char) (hc : pyIsWS c = false) (hd : pyIsWS d = false) :
    pyStripWS [c, d] = [c, d] := by
  unfold pyStripWS
  simp [List.dropWhile, hc, hd]

/-- int(s, 16) on a two-hex-digit string is its base-16 value. -/
lemma pyIntBase16_pair (c d : Char) (v w : ℕ) (hc : hexVal c = some v)
    (hd : hexVal d = some w) :
    pyIntBase16 [c, d] = some ((16 * v + w : ℕ) : ℤ) := by
  obtain ⟨hwc, hpc, hmc, hxc, hXc⟩ := hexChar_class c v hc
  obtain ⟨hwd, hpd, hmd, hxd, hXd⟩ := hexChar_class d w hd
  unfold pyIntBase16
  rw [pyStripWS_pair c d hwc hwd]
  dsimp only
  rw [if_neg hpc, if_neg hmc]
  dsimp only
  rw [if_neg (show ¬(c = '0' ∧ (d = 'x' ∨ d = 'X')) from fun hcon => hcon.2.elim hxd hXd)]
  dsimp only
  simp only [hexDigitsVal]
  rw [hc]
  dsimp only
  rw [hd]
  dsimp only
  simp only [Option.map_some', one_mul]
  congr 1
  push_cast
  ring

set_option maxRecDepth 4000 in
/-- The two-uppercase-hex-digit block of a byte has length 2 and parses back
to the byte under int(s, 16). -/
lemma hexPair_spec (n : ℤ) (h0 : 0 ≤ n) (h1 : n < 256) :
    (upperStr (zfill2 (pyHexSlice n))).length = 2 ∧
    pyIntBase16 (upperStr (zfill2 (pyHexSlice n))) = some n := by
  have hm : n.toNat < 256 := by omega
  have hb : ∀ m : ℕ, m < 256 → (upperStr (zfill2 (pyHexSlice (m : ℤ)))).length = 2 ∧
      pyIntBase16 (upperStr (zfill2 (pyHexSlice (m : ℤ)))) = some (m : ℤ) := by decide
  have h2 := hb n.toNat hm
  rwa [Int.toNat_of_nonneg h0] at h2

/-- Parsing the hex string assembled from three length-2 channel blocks
recovers the three parsed channel values scaled by 255 (sRGB mode). -/
lemma hexS_parse_triple (A B C : Str) (vA vB vC : ℤ)
    (hA : A.length = 2) (hB : B.length = 2) (hC : C.length = 2)
    (hpA : pyIntBase16 A = some vA) (hpB : pyIntBase16 B = some vB)
    (hpC : pyIntBase16 C = some vC) :
    hexSToRgbF ('#' :: (A ++ B ++ C)) strSRGB =
      some ((vA : ℝ) / 255, (vB : ℝ) / 255, (vC : ℝ) / 255) := by
  have hlen : ('#' :: (A ++ B ++ C)).length = 7 := by
    simp [hA, hB, hC]
  have hstart : startsW ('#' :: (A ++ B ++ C)) ['#'] = true := by
    simp [startsW]
  have eA : (('#' :: (A ++ B ++ C)).drop 1).take 2 = A := by
    rw [show ('#' :: (A ++ B ++ C)).drop 1 = A ++ B ++ C from rfl, List.append_assoc,
      ← hA, List.take_left]
  have eB : (('#' :: (A ++ B ++ C)).drop 3).take 2 = B := by
    rw [show ('#' :: (A ++ B ++ C)).drop 3 = (A ++ B ++ C).drop 2 from rfl, List.append_assoc,
      ← hA, List.drop_left, hA, ← hB, List.take_left]
  have eC : (('#' :: (A ++ B ++ C)).drop 5).take 2 = C := by
    rw [show ('#' :: (A ++ B ++ C)).drop 5 = (A ++ B ++ C).drop 4 from rfl, List.append_assoc]
    rw [show (4 : ℕ) = A.length + 2 by omega, List.drop_append, ← hB, List.drop_left,
      hB, ← hC, List.take_length]
  unfold hexSToRgbF
  rw [if_neg (not_not_intro ⟨hstart, Or.inr hlen⟩)]
  dsimp only
  simp only [hlen]
  rw [if_neg (by norm_num : ¬(7 : ℕ) = 4), if_neg (by norm_num : ¬(7 : ℕ) = 4),
    if_neg (by norm_num : ¬(7 : ℕ) = 4)]
  rw [eA, eB, eC, hpA, hpB, hpC]
  dsimp only
  simp only [if_true]

/-- int(s, 16) fails on a duplicated non-hex character. -/
lemma pyIntBase16_dup_none (c : Char) (h : hexVal c = none) : pyIntBase16 [c, c] = none := by
  by_cases hw : pyIsWS c = true
  · unfold pyIntBase16
    have hstrip : pyStripWS [c, c] = [] := by simp [pyStripWS, List.dropWhile, hw]
    rw [hstrip]
  · have hw2 : pyIsWS c = false := by
      cases hcb : pyIsWS c
      · rfl
      · exact absurd hcb hw
    by_cases hp : c = '+'
    · subst hp; decide
    · by_cases hm : c = '-'
      · subst hm; decide
      · have h0 : c ≠ '0' := by
          intro hc
          subst hc
          exact absurd h (by decide)
        unfold pyIntBase16
        rw [pyStripWS_pair c c hw2 hw2]
        dsimp only
        rw [if_neg hp, if_neg hm]
        dsimp only
        rw [if_neg (fun hcon => h0 hcon.1)]
        dsimp only
        simp only [hexDigitsVal]
        rw [h]
        rfl

/-- Python float modulo with a positive divisor lands in [0, divisor). -/
lemma pyMod_mem (x y : ℝ) (hy : 0 < y) : 0 ≤ pyMod x y ∧ pyMod x y < y := by
  unfold pyMod
  constructor
  · have h1 : (⌊x / y⌋ : ℝ) ≤ x / y := Int.floor_le _
    have h2 : y * (⌊x / y⌋ : ℝ) ≤ y * (x / y) := by
      exact mul_le_mul_of_nonneg_left h1 (le_of_lt hy)
    rw [mul_div_cancel₀ _ (ne_of_gt hy)] at h2
    linarith
  · have h1 : x / y < (⌊x / y⌋ : ℝ) + 1 := Int.lt_floor_add_one _
    have h2 : y * (x / y) < y * ((⌊x / y⌋ : ℝ) + 1) := by
      exact mul_lt_mul_of_pos_left h1 hy
    rw [mul_div_cancel₀ _ (ne_of_gt hy)] at h2
    nlinarith

end Convert

/-- C4 counterexample: the token "720" is a valid angle token, but angleStoDeg
returns 720, which is not normalized into [0, 360). -/
theorem claim_C4_counterexample :
    Convert.angleStoDeg ['7', '2', '0'] = some 720 ∧ ¬((720 : ℝ) < 360) := by
  constructor
  · unfold Convert.angleStoDeg
    rw [if_neg (by decide), if_neg (by decide), if_neg (by decide), if_neg (by decide)]
    have hq : Convert.pyFloatQ ['7', '2', '0'] = some 720 := by
      rw [Convert.pyFloatQ_eval _ (1, 720, 0, 0, 0) (by decide)]
      norm_num [Convert.floatVal]
    rw [hq]
    simp only [Option.map_some']
    rw [if_neg (by norm_num : ¬((720 : ℚ) : ℝ) < 0)]
    norm_num
  · norm_num

/-- C4 amended: for a token built from a parseable numeric part and one of the
suffixes deg, grad, rad, turn (or no suffix), angleStoDeg converts the value
to degrees and then returns it unchanged when nonnegative, or returns
(d mod 360) + 360 - a value in [360, 720) - when negative; when the numeric
part fails to parse it returns none; every returned angle is nonnegative (but
values of 360 or more are not reduced into [0, 360)). -/
theorem claim_C4_angleStoDeg_amended :
    (∀ t : Str, ∀ q : ℚ, Convert.pyFloatQ t = some q →
      (Convert.angleStoDeg (t ++ ['d', 'e', 'g']) =
        some (if (q : ℝ) < 0 then pyMod (q : ℝ) 360 + 360 else (q : ℝ))) ∧
      (Convert.angleStoDeg (t ++ ['g', 'r', 'a', 'd']) =
        some (if (q : ℝ) / 10 * 9 < 0 then pyMod ((q : ℝ) / 10 * 9) 360 + 360
          else (q : ℝ) / 10 * 9)) ∧
      (t.getLast? ≠ some 'g' → Convert.angleStoDeg (t ++ ['r', 'a', 'd']) =
        some (if (q : ℝ) * (180 / Real.pi) < 0 then
          pyMod ((q : ℝ) * (180 / Real.pi)) 360 + 360 else (q : ℝ) * (180 / Real.pi))) ∧
      (Convert.angleStoDeg (t ++ ['t', 'u', 'r', 'n']) =
        some (if (q : ℝ) * 360 < 0 then pyMod ((q : ℝ) * 360) 360 + 360 else (q : ℝ) * 360))) ∧
    (∀ t : Str, Convert.endsW t ['d', 'e', 'g'] = false → Convert.endsW t ['g', 'r', 'a', 'd'] = false →
      Convert.endsW t ['r', 'a', 'd'] = false → Convert.endsW t ['t', 'u', 'r', 'n'] = false →
      (∀ q : ℚ, Convert.pyFloatQ t = some q → Convert.angleStoDeg t =
        some (if (q : ℝ) < 0 then pyMod (q : ℝ) 360 + 360 else (q : ℝ))) ∧
      (Convert.pyFloatQ t = none → Convert.angleStoDeg t = none)) ∧
    (∀ t : Str, Convert.pyFloatQ t = none →
      Convert.angleStoDeg (t ++ ['d', 'e', 'g']) = none ∧
      Convert.angleStoDeg (t ++ ['g', 'r', 'a', 'd']) = none ∧
      (t.getLast? ≠ some 'g' → Convert.angleStoDeg (t ++ ['r', 'a', 'd']) = none) ∧
      Convert.angleStoDeg (t ++ ['t', 'u', 'r', 'n']) = none) ∧
    (∀ a : Str, ∀ x : ℝ, Convert.angleStoDeg a = some x → 0 ≤ x) := by
  have hdeg : ∀ t : Str, Convert.angleStoDeg (t ++ ['d', 'e', 'g']) =
      (Convert.pyFloatQ t).map (fun q : ℚ => if ((q:ℝ)) < 0 then pyMod ((q:ℝ)) 360 + 360 else ((q:ℝ))) := by
    intro t
    unfold Convert.angleStoDeg
    rw [Convert.endsW_append, if_pos rfl]
    have hlen : (t ++ ['d', 'e', 'g']).length - 3 = t.length := by simp
    rw [hlen, List.take_left]
    cases Convert.pyFloatQ t <;> rfl
  have hgrad : ∀ t : Str, Convert.angleStoDeg (t ++ ['g', 'r', 'a', 'd']) =
      (Convert.pyFloatQ t).map (fun q : ℚ => if ((q:ℝ)) / 10 * 9 < 0 then
        pyMod ((q:ℝ) / 10 * 9) 360 + 360 else ((q:ℝ)) / 10 * 9) := by
    intro t
    unfold Convert.angleStoDeg
    rw [Convert.endsW_append_longer t _ _ (by decide),
      (by decide : Convert.endsW ['g', 'r', 'a', 'd'] ['d', 'e', 'g'] = false)]
    rw [if_neg (by simp), Convert.endsW_append, if_pos rfl]
    have hlen : (t ++ ['g', 'r', 'a', 'd']).length - 4 = t.length := by simp
    rw [hlen, List.take_left]
    cases Convert.pyFloatQ t <;> rfl
  have hrad : ∀ t : Str, t.getLast? ≠ some 'g' →
      Convert.angleStoDeg (t ++ ['r', 'a', 'd']) =
      (Convert.pyFloatQ t).map (fun q : ℚ => if ((q:ℝ)) * (180 / Real.pi) < 0 then
        pyMod ((q:ℝ) * (180 / Real.pi)) 360 + 360 else ((q:ℝ)) * (180 / Real.pi)) := by
    intro t hg
    unfold Convert.angleStoDeg
    rw [Convert.endsW_append_longer t _ _ (by decide),
      (by decide : Convert.endsW ['r', 'a', 'd'] ['d', 'e', 'g'] = false)]
    rw [if_neg (by simp), Convert.endsW_rad_grad t hg, if_neg (by simp),
      Convert.endsW_append, if_pos rfl]
    have hlen : (t ++ ['r', 'a', 'd']).length - 3 = t.length := by simp
    rw [hlen, List.take_left]
    cases Convert.pyFloatQ t <;> rfl
  have hturn : ∀ t : Str, Convert.angleStoDeg (t ++ ['t', 'u', 'r', 'n']) =
      (Convert.pyFloatQ t).map (fun q : ℚ => if ((q:ℝ)) * 360 < 0 then
        pyMod ((q:ℝ) * 360) 360 + 360 else ((q:ℝ)) * 360) := by
    intro t
    unfold Convert.angleStoDeg
    rw [Convert.endsW_append_longer t _ _ (by decide),
      (by decide : Convert.endsW ['t', 'u', 'r', 'n'] ['d', 'e', 'g'] = false)]
    rw [if_neg (by simp)]
    rw [Convert.endsW_append_longer t _ _ (by decide),
      (by decide : Convert.endsW ['t', 'u', 'r', 'n'] ['g', 'r', 'a', 'd'] = false)]
    rw [if_neg (by simp)]
    rw [Convert.endsW_append_longer t _ _ (by decide),
      (by decide : Convert.endsW ['t', 'u', 'r', 'n'] ['r', 'a', 'd'] = false)]
    rw [if_neg (by simp), Convert.endsW_append, if_pos rfl]
    have hlen : (t ++ ['t', 'u', 'r', 'n']).length - 4 = t.length := by simp
    rw [hlen, List.take_left]
    cases Convert.pyFloatQ t <;> rfl
  refine ⟨?_, ?_, ?_, ?_⟩
  · intro t q hq
    exact ⟨by rw [hdeg, hq]; rfl, by rw [hgrad, hq]; rfl,
      fun hg => by rw [hrad t hg, hq]; rfl, by rw [hturn, hq]; rfl⟩
  · intro t h1 h2 h3 h4
    constructor
    · intro q hq
      unfold Convert.angleStoDeg
      rw [h1, h2, h3, h4]
      simp only [Bool.false_eq_true, if_false]
      rw [hq]
      rfl
    · intro hq
      unfold Convert.angleStoDeg
      rw [h1, h2, h3, h4]
      simp only [Bool.false_eq_true, if_false]
      rw [hq]
      rfl
  · intro t hq
    exact ⟨by rw [hdeg, hq]; rfl, by rw [hgrad, hq]; rfl,
      fun hg => by rw [hrad t hg, hq]; rfl, by rw [hturn, hq]; rfl⟩
  · intro a x hx
    unfold Convert.angleStoDeg at hx
    rcases Option.map_eq_some'.mp hx with ⟨d, -, hd2⟩
    by_cases hneg : d < 0
    · rw [if_pos hneg] at hd2
      have := (Convert.pyMod_mem d 360 (by norm_num)).1
      linarith [hd2]
    · rw [if_neg hneg] at hd2
      push_neg at hneg
      linarith [hd2]

/-- Witness for C4 amended at the tokens 1.5deg/grad/rad/turn, bare 42,
the unparseable xyz forms, and the nonnegativity of the result for -90deg. -/
theorem claim_C4_witness :
    Convert.angleStoDeg ['1', '.', '5', 'd', 'e', 'g'] = some 1.5 ∧
    Convert.angleStoDeg ['4', '2'] = some 42 ∧
    Convert.angleStoDeg ['x', 'd', 'e', 'g'] = none ∧
    (0 : ℝ) ≤ 630 ∧ Convert.angleStoDeg ['-', '9', '0', 'd', 'e', 'g'] = some 630 := by
  have h15 : Convert.pyFloatQ ['1', '.', '5'] = some 1.5 := by
    rw [Convert.pyFloatQ_eval _ (1, 1, 5, 1, 0) (by decide)]
    norm_num [Convert.floatVal]
  have h42 : Convert.pyFloatQ ['4', '2'] = some 42 := by
    rw [Convert.pyFloatQ_eval _ (1, 42, 0, 0, 0) (by decide)]
    norm_num [Convert.floatVal]
  have h1 := ((claim_C4_angleStoDeg_amended.1 ['1', '.', '5'] 1.5 h15).1)
  have h2 := (claim_C4_angleStoDeg_amended.2.1 ['4', '2'] (by decide) (by decide) (by decide)
    (by decide)).1 42 h42
  have h3 := (claim_C4_angleStoDeg_amended.2.2.1 ['x']
    (Convert.pyFloatQ_none _ (by decide))).1
  have hm90 : Convert.pyFloatQ ['-', '9', '0'] = some (-90) := by
    rw [Convert.pyFloatQ_eval _ (-1, 90, 0, 0, 0) (by decide)]
    norm_num [Convert.floatVal]
  have h4 := ((claim_C4_angleStoDeg_amended.1 ['-', '9', '0'] (-90) hm90).1)
  refine ⟨?_, ?_, ?_, by norm_num, ?_⟩
  · show Convert.angleStoDeg (['1', '.', '5'] ++ ['d', 'e', 'g']) = some 1.5
    rw [h1]
    rw [if_neg (by norm_num : ¬((1.5 : ℚ) : ℝ) < 0)]
    norm_num
  · rw [h2]
    rw [if_neg (by norm_num : ¬((42 : ℚ) : ℝ) < 0)]
    norm_num
  · exact h3
  · show Convert.angleStoDeg (['-', '9', '0'] ++ ['d', 'e', 'g']) = some 630
    rw [h4]
    rw [if_pos (by norm_num : ((-90 : ℚ) : ℝ) < 0)]
    have : pyMod ((-90 : ℚ) : ℝ) 360 = 270 := by
      unfold pyMod
      have : ⌊(((-90 : ℚ) : ℝ)) / 360⌋ = -1 := by
        push_cast
        norm_num
      rw [this]
      push_cast
      norm_num
    rw [this]
    norm_num

/-- C3 counterexample: rgbFToOkhsv takes no previous-hue parameter at all; on
the neutral input black it reports the fixed hue 0 (an arbitrary hue) and no
gamut limit, returning the bare triple (0, 0, 0). -/
theorem claim_C3_counterexample : Convert.rgbFToOkhsv 0 0 0 strLinear = (0, 0, 0) := by
  unfold Convert.rgbFToOkhsv
  dsimp only
  rw [if_neg (by decide : ¬(strLinear = strSRGB)), Convert.linearToOklab_zero]
  dsimp only
  rw [Convert.cartesianToPolar_zero]
  dsimp only
  rw [if_pos (by norm_num : (0 : ℝ) < 0.000001), Convert.toe_zero]
  rw [show (0 : ℝ) * 100 = 0 by ring, Convert.pyRound_zero]

/-- C3 amended: for inputs whose Oklab chroma magnitude is below 1e-6,
rgbFToOklch and rgbFToOkhcl retain the hue h passed in as a parameter, use it
to compute the gamut limit, and report chroma as exactly 0; rgbFToOkhsv has no
hue parameter and instead reports hue 0, saturation 0 and the toe-compressed
value, computing no gamut limit. -/
theorem claim_C3_neutral_amended :
    (∀ r g b h : ℝ, ∀ trc : Str, Convert.chromaOf r g b trc < 0.000001 → h ≠ 264.06 →
      Convert.rgbFToOklch r g b h trc =
        (pyRound ((Convert.oklabOf r g b trc).1 * 100) 2, 0, h,
         Convert.roundZero (Convert.findGamutIntersection (Convert.polarToCartesian 1 h).1
           (Convert.polarToCartesian 1 h).2 (Convert.oklabOf r g b trc).1 1
           (Convert.oklabOf r g b trc).1 none) 4)) ∧
    (∀ r g b h : ℝ, ∀ trc : Str, Convert.chromaOf r g b trc < 0.000001 →
      Convert.rgbFToOkhcl r g b h trc =
        (pyRound h 2, 0, pyRound (Convert.toe (Convert.oklabOf r g b trc).1 * 100) 2,
         pyRound ((Convert.findGamutIntersection (Convert.polarToCartesian 1 h).1
             (Convert.polarToCartesian 1 h).2 (Convert.oklabOf r g b trc).1 1
             (Convert.oklabOf r g b trc).1
             (some (Convert.findCuspLC (Convert.polarToCartesian 1 h).1
               (Convert.polarToCartesian 1 h).2)) /
           (Convert.findCuspLC (Convert.polarToCartesian 1 h).1
             (Convert.polarToCartesian 1 h).2).2) * 100) 3)) ∧
    (∀ r g b : ℝ, ∀ trc : Str, Convert.chromaOf r g b trc < 0.000001 →
      Convert.rgbFToOkhsv r g b trc =
        (0, 0, pyRound (Convert.toe (Convert.oklabOf r g b trc).1 * 100) 2)) := by
  refine ⟨?_, ?_, ?_⟩
  · intro r g b h trc hc hne
    unfold Convert.chromaOf Convert.oklabOf at hc
    unfold Convert.rgbFToOklch Convert.oklabOf
    dsimp only
    rw [if_pos hc]
    dsimp only
    rw [if_neg hne]
  · intro r g b h trc hc
    unfold Convert.chromaOf Convert.oklabOf at hc
    unfold Convert.rgbFToOkhcl Convert.oklabOf
    dsimp only
    rw [if_pos hc]
    dsimp only
    rw [show (0 : ℝ) * 100 = 0 by ring, Convert.pyRound_zero]
  · intro r g b trc hc
    unfold Convert.chromaOf Convert.oklabOf at hc
    unfold Convert.rgbFToOkhsv Convert.oklabOf
    dsimp only
    rw [if_pos hc]

/-- Witness for C3 at the neutral input black with previous hue 77 in linear
transfer mode. -/
theorem claim_C3_witness :
    Convert.rgbFToOklch 0 0 0 77 strLinear =
      (pyRound ((Convert.oklabOf 0 0 0 strLinear).1 * 100) 2, 0, 77,
       Convert.roundZero (Convert.findGamutIntersection (Convert.polarToCartesian 1 77).1
         (Convert.polarToCartesian 1 77).2 (Convert.oklabOf 0 0 0 strLinear).1 1
         (Convert.oklabOf 0 0 0 strLinear).1 none) 4) ∧
    Convert.rgbFToOkhcl 0 0 0 77 strLinear =
      (pyRound 77 2, 0, pyRound (Convert.toe (Convert.oklabOf 0 0 0 strLinear).1 * 100) 2,
       pyRound ((Convert.findGamutIntersection (Convert.polarToCartesian 1 77).1
           (Convert.polarToCartesian 1 77).2 (Convert.oklabOf 0 0 0 strLinear).1 1
           (Convert.oklabOf 0 0 0 strLinear).1
           (some (Convert.findCuspLC (Convert.polarToCartesian 1 77).1
             (Convert.polarToCartesian 1 77).2)) /
         (Convert.findCuspLC (Convert.polarToCartesian 1 77).1
           (Convert.polarToCartesian 1 77).2).2) * 100) 3) ∧
    Convert.rgbFToOkhsv 0 0 0 strLinear =
      (0, 0, pyRound (Convert.toe (Convert.oklabOf 0 0 0 strLinear).1 * 100) 2) := by
  have hc : Convert.chromaOf 0 0 0 strLinear < 0.000001 := by
    unfold Convert.chromaOf Convert.oklabOf
    rw [if_neg (by decide : ¬(strLinear = strSRGB)), Convert.linearToOklab_zero]
    dsimp only
    rw [Convert.cartesianToPolar_zero]
    norm_num
  exact ⟨claim_C3_neutral_amended.1 0 0 0 77 strLinear hc (by norm_num),
    claim_C3_neutral_amended.2.1 0 0 0 77 strLinear hc,
    claim_C3_neutral_amended.2.2 0 0 0 strLinear hc⟩

/-- C7: in the upper-half branch of findGamutIntersection, each per-channel
Halley refinement whose guard quantity u is negative is replaced by the
floating maximum sentinel; the returned t is the triangle-edge t plus the
minimum of the three possibly-sentinel refinements; and whenever some channel
is valid with a refinement below the sentinel, the selected minimum is below
the sentinel, so an invalid channel's substitute is never the value chosen. -/
theorem claim_C7_upper_halley_guard (a b l1 c1 l0 cL cC : ℝ)
    (hUp : ¬((l1 - l0) * cC - (cL - l1) * c1 ≤ 0)) :
    (let t := cC * (l0 - 1) / (c1 * (cL - 1) + cC * (l0 - l1))
    let dL := l1 - l0
    let dC := c1
    let k_l := 0.3963377774 * a + 0.2158037573 * b
    let k_m := -0.1055613458 * a - 0.0638541728 * b
    let k_s := -0.0894841775 * a - 1.2914855480 * b
    let l_dt := dL + dC * k_l
    let m_dt := dL + dC * k_m
    let s_dt := dL + dC * k_s
    let l0t := l0 * (1 - t) + t * l1
    let ct := t * c1
    let l_ := l0t + ct * k_l
    let m_ := l0t + ct * k_m
    let s_ := l0t + ct * k_s
    let l := l_ * l_ * l_
    let m := m_ * m_ * m_
    let s := s_ * s_ * s_
    let ldt := 3 * l_dt * l_ * l_
    let mdt := 3 * m_dt * m_ * m_
    let sdt := 3 * s_dt * s_ * s_
    let ldt2 := 6 * l_dt * l_dt * l_
    let mdt2 := 6 * m_dt * m_dt * m_
    let sdt2 := 6 * s_dt * s_dt * s_
    let rr := 4.0767416621 * l - 3.3077115913 * m + 0.2309699292 * s - 1
    let rr1 := 4.0767416621 * ldt - 3.3077115913 * mdt + 0.2309699292 * sdt
    let rr2 := 4.0767416621 * ldt2 - 3.3077115913 * mdt2 + 0.2309699292 * sdt2
    let u_r := rr1 / (rr1 * rr1 - 0.5 * rr * rr2)
    let t_r := -rr * u_r
    let gg := -1.2684380046 * l + 2.6097574011 * m - 0.3413193965 * s - 1
    let gg1 := -1.2684380046 * ldt + 2.6097574011 * mdt - 0.3413193965 * sdt
    let gg2 := -1.2684380046 * ldt2 + 2.6097574011 * mdt2 - 0.3413193965 * sdt2
    let u_g := gg1 / (gg1 * gg1 - 0.5 * gg * gg2)
    let t_g := -gg * u_g
    let bb := -0.0041960863 * l - 0.7034186147 * m + 1.7076147010 * s - 1
    let bb1 := -0.0041960863 * ldt - 0.7034186147 * mdt + 1.7076147010 * sdt
    let bb2 := -0.0041960863 * ldt2 - 0.7034186147 * mdt2 + 1.7076147010 * sdt2
    let u_b := bb1 / (bb1 * bb1 - 0.5 * bb * bb2)
    let t_b := -bb * u_b
    let t_r2 := if u_r ≥ 0 then t_r else floatMax
    let t_g2 := if u_g ≥ 0 then t_g else floatMax
    let t_b2 := if u_b ≥ 0 then t_b else floatMax
    (Convert.findGamutIntersection a b l1 c1 l0 (some (cL, cC)) =
      t + min (min t_r2 t_g2) t_b2) ∧
    (u_r < 0 → t_r2 = floatMax) ∧
    (u_g < 0 → t_g2 = floatMax) ∧
    (u_b < 0 → t_b2 = floatMax) ∧
    (((0 ≤ u_r ∧ t_r < floatMax) ∨ (0 ≤ u_g ∧ t_g < floatMax) ∨
        (0 ≤ u_b ∧ t_b < floatMax)) →
      min (min t_r2 t_g2) t_b2 < floatMax)) := by
  intro t dL dC k_l k_m k_s l_dt m_dt s_dt l0t ct l_ m_ s_ l m s ldt mdt sdt ldt2 mdt2
    sdt2 rr rr1 rr2 u_r t_r gg gg1 gg2 u_g t_g bb bb1 bb2 u_b t_b t_r2 t_g2 t_b2
  refine ⟨?_, ?_, ?_, ?_, ?_⟩
  · unfold Convert.findGamutIntersection
    simp only [Option.getD_some]
    rw [if_neg hUp]
  · intro h
    show (if u_r ≥ 0 then t_r else floatMax) = floatMax
    rw [if_neg (not_le.mpr h)]
  · intro h
    show (if u_g ≥ 0 then t_g else floatMax) = floatMax
    rw [if_neg (not_le.mpr h)]
  · intro h
    show (if u_b ≥ 0 then t_b else floatMax) = floatMax
    rw [if_neg (not_le.mpr h)]
  · rintro (⟨h1, h2⟩ | ⟨h1, h2⟩ | ⟨h1, h2⟩)
    · refine min_lt_iff.mpr (Or.inl (min_lt_iff.mpr (Or.inl ?_)))
      show (if u_r ≥ 0 then t_r else floatMax) < floatMax
      rw [if_pos h1]
      exact h2
    · refine min_lt_iff.mpr (Or.inl (min_lt_iff.mpr (Or.inr ?_)))
      show (if u_g ≥ 0 then t_g else floatMax) < floatMax
      rw [if_pos h1]
      exact h2
    · refine min_lt_iff.mpr (Or.inr ?_)
      show (if u_b ≥ 0 then t_b else floatMax) < floatMax
      rw [if_pos h1]
      exact h2

set_option maxHeartbeats 4000000 in
/-- Witness for C7 at a concrete upper-half configuration: the full gamut
intersection value evaluates to the exact rational predicted by the
triangle-plus-guarded-Halley formula. -/
theorem claim_C7_witness :
    ¬(((0.9 : ℝ) - 0.5) * 0.2 - (0.7 - 0.9) * 0.1 ≤ 0) ∧
    Convert.findGamutIntersection 1 0 0.9 0.1 0.5 (some (0.7, 0.2)) =
      (64362719410487331320483924573194025532133416001720653267388078961776092522536394935 /
       73299227987781753061649456772675459816713540673205326826617574466474348248580068857 : ℝ) := by
  refine ⟨by norm_num, ?_⟩
  have h := (claim_C7_upper_halley_guard 1 0 0.9 0.1 0.5 0.7 0.2 (by norm_num)).1
  rw [h]
  norm_num [floatMax, min_def]

/-- C1: every model-to-RGB conversion, on the model's documented input ranges,
returns an RGB triple whose components all lie in [0, 1].  For HSV and HSL this
needs h ≥ 0 and percent channels in [0, 100]; for HCY additionally a chroma
respecting the supplied limit u (or the u = -1 clip sentinel); the four
Oklab-based conversions clamp unconditionally. -/
theorem claim_C1_toRgbF_in_unit :
    (∀ h s v : ℝ, ∀ trc : Str, 0 ≤ h → 0 ≤ s → s ≤ 100 → 0 ≤ v → v ≤ 100 →
      inUnit (Convert.hsvToRgbF h s v trc)) ∧
    (∀ h s l : ℝ, ∀ trc : Str, 0 ≤ h → 0 ≤ s → s ≤ 100 → 0 ≤ l → l ≤ 100 →
      inUnit (Convert.hslToRgbF h s l trc)) ∧
    (∀ h c y u : ℝ, ∀ trc : Str, ∀ luma : Bool, 0 ≤ h → 0 ≤ c → 0 ≤ y → y ≤ 100 →
      (u = -1 ∨ (0 ≤ u ∧ c ≤ u)) → inUnit (Convert.hcyToRgbF h c y u trc luma)) ∧
    (∀ l c h u : ℝ, ∀ trc : Str, inUnit (Convert.oklchToRgbF l c h u trc)) ∧
    (∀ h c l u : ℝ, ∀ trc : Str, inUnit (Convert.okhclToRgbF h c l u trc)) ∧
    (∀ h s v : ℝ, ∀ trc : Str, inUnit (Convert.okhsvToRgbF h s v trc)) ∧
    (∀ h s l : ℝ, ∀ trc : Str, inUnit (Convert.okhslToRgbF h s l trc)) :=
  ⟨fun h s v trc hh hs0 hs1 hv0 hv1 => Convert.hsvToRgbF_mem h s v trc hh hs0 hs1 hv0 hv1,
   fun h s l trc hh hs0 hs1 hl0 hl1 => Convert.hslToRgbF_mem h s l trc hh hs0 hs1 hl0 hl1,
   fun h c y u trc luma hh hc hy0 hy1 hu => Convert.hcyToRgbF_mem h c y u trc luma hh hc hy0 hy1 hu,
   fun l c h u trc => Convert.oklchToRgbF_mem l c h u trc,
   fun h c l u trc => Convert.okhclToRgbF_mem h c l u trc,
   fun h s v trc => Convert.okhsvToRgbF_mem h s v trc,
   fun h s l trc => Convert.okhslToRgbF_mem h s l trc⟩

/-- Witness for C1 at concrete in-range inputs for each of the seven
conversions (both HCY chroma policies exercised through u = -1 and u = 40). -/
theorem claim_C1_witness :
    inUnit (Convert.hsvToRgbF 250 40 80 strSRGB) ∧
    inUnit (Convert.hslToRgbF 10 90 30 strLinear) ∧
    inUnit (Convert.hcyToRgbF 120 30 71.52 (-1) strSRGB true) ∧
    inUnit (Convert.hcyToRgbF 120 30 71.52 40 strSRGB false) ∧
    inUnit (Convert.oklchToRgbF 70 0.1 30 (-1) strSRGB) ∧
    inUnit (Convert.okhclToRgbF 30 50 70 (-1) strSRGB) ∧
    inUnit (Convert.okhsvToRgbF 30 50 70 strLinear) ∧
    inUnit (Convert.okhslToRgbF 30 50 70 strSRGB) :=
  ⟨claim_C1_toRgbF_in_unit.1 250 40 80 strSRGB (by norm_num) (by norm_num) (by norm_num)
      (by norm_num) (by norm_num),
   claim_C1_toRgbF_in_unit.2.1 10 90 30 strLinear (by norm_num) (by norm_num) (by norm_num)
      (by norm_num) (by norm_num),
   claim_C1_toRgbF_in_unit.2.2.1 120 30 71.52 (-1) strSRGB true (by norm_num) (by norm_num)
      (by norm_num) (by norm_num) (Or.inl rfl),
   claim_C1_toRgbF_in_unit.2.2.1 120 30 71.52 40 strSRGB false (by norm_num) (by norm_num)
      (by norm_num) (by norm_num) (Or.inr ⟨by norm_num, by norm_num⟩),
   claim_C1_toRgbF_in_unit.2.2.2.1 70 0.1 30 (-1) strSRGB,
   claim_C1_toRgbF_in_unit.2.2.2.2.1 30 50 70 (-1) strSRGB,
   claim_C1_toRgbF_in_unit.2.2.2.2.2.1 30 50 70 strLinear,
   claim_C1_toRgbF_in_unit.2.2.2.2.2.2 30 50 70 strSRGB⟩

end

/-- C5: For every (r,g,b) with components in [0,1], parsing the hex string
produced by rgbFToHexS in sRGB mode returns the quantised triple
(⌊r*255⌋/255, ⌊g*255⌋/255, ⌊b*255⌋/255), and each quantised component differs
from the original by at most 1/255. -/
theorem claim_C5_hex_roundtrip (r g b : ℝ)
    (hr0 : 0 ≤ r) (hr1 : r ≤ 1) (hg0 : 0 ≤ g) (hg1 : g ≤ 1)
    (hb0 : 0 ≤ b) (hb1 : b ≤ 1) :
    Convert.hexSToRgbF (Convert.rgbFToHexS r g b strSRGB) strSRGB =
      some ((⌊r * 255⌋ : ℝ) / 255, (⌊g * 255⌋ : ℝ) / 255, (⌊b * 255⌋ : ℝ) / 255) ∧
    |(⌊r * 255⌋ : ℝ) / 255 - r| ≤ 1 / 255 ∧
    |(⌊g * 255⌋ : ℝ) / 255 - g| ≤ 1 / 255 ∧
    |(⌊b * 255⌋ : ℝ) / 255 - b| ≤ 1 / 255 := by
  have hfr0 : (0 : ℤ) ≤ ⌊r * 255⌋ := Int.floor_nonneg.mpr (mul_nonneg hr0 (by norm_num))
  have hfg0 : (0 : ℤ) ≤ ⌊g * 255⌋ := Int.floor_nonneg.mpr (mul_nonneg hg0 (by norm_num))
  have hfb0 : (0 : ℤ) ≤ ⌊b * 255⌋ := Int.floor_nonneg.mpr (mul_nonneg hb0 (by norm_num))
  have hfr1 : ⌊r * 255⌋ < 256 := Int.floor_lt.mpr (by push_cast; nlinarith)
  have hfg1 : ⌊g * 255⌋ < 256 := Int.floor_lt.mpr (by push_cast; nlinarith)
  have hfb1 : ⌊b * 255⌋ < 256 := Int.floor_lt.mpr (by push_cast; nlinarith)
  have hA := Convert.hexPair_spec ⌊r * 255⌋ hfr0 hfr1
  have hB := Convert.hexPair_spec ⌊g * 255⌋ hfg0 hfg1
  have hC := Convert.hexPair_spec ⌊b * 255⌋ hfb0 hfb1
  have hstr : Convert.rgbFToHexS r g b strSRGB =
      '#' :: (Convert.upperStr (Convert.zfill2 (Convert.pyHexSlice ⌊r * 255⌋)) ++
        Convert.upperStr (Convert.zfill2 (Convert.pyHexSlice ⌊g * 255⌋)) ++
        Convert.upperStr (Convert.zfill2 (Convert.pyHexSlice ⌊b * 255⌋))) := by
    unfold Convert.rgbFToHexS Convert.rgbFToInt8
    rw [if_pos rfl]
    rw [Convert.pyInt_of_nonneg (mul_nonneg hr0 (by norm_num)),
        Convert.pyInt_of_nonneg (mul_nonneg hg0 (by norm_num)),
        Convert.pyInt_of_nonneg (mul_nonneg hb0 (by norm_num))]
  refine ⟨?_, ?_, ?_, ?_⟩
  · rw [hstr]
    exact Convert.hexS_parse_triple _ _ _ _ _ _ hA.1 hB.1 hC.1 hA.2 hB.2 hC.2
  · rw [abs_le]
    have h1 : (⌊r * 255⌋ : ℝ) ≤ r * 255 := Int.floor_le _
    have h2 : r * 255 - 1 < (⌊r * 255⌋ : ℝ) := Int.sub_one_lt_floor _
    constructor <;> linarith
  · rw [abs_le]
    have h1 : (⌊g * 255⌋ : ℝ) ≤ g * 255 := Int.floor_le _
    have h2 : g * 255 - 1 < (⌊g * 255⌋ : ℝ) := Int.sub_one_lt_floor _
    constructor <;> linarith
  · rw [abs_le]
    have h1 : (⌊b * 255⌋ : ℝ) ≤ b * 255 := Int.floor_le _
    have h2 : b * 255 - 1 < (⌊b * 255⌋ : ℝ) := Int.sub_one_lt_floor _
    constructor <;> linarith

/-- C5 witness: the round-trip at (0.5, 0.25, 1) yields (127/255, 63/255, 255/255),
each within 1/255 of the input. -/
theorem claim_C5_witness :
    Convert.hexSToRgbF (Convert.rgbFToHexS 0.5 0.25 1 strSRGB) strSRGB =
      some ((127 : ℝ) / 255, (63 : ℝ) / 255, (255 : ℝ) / 255) ∧
    |(127 : ℝ) / 255 - 0.5| ≤ 1 / 255 ∧ |(63 : ℝ) / 255 - 0.25| ≤ 1 / 255 ∧
    |(255 : ℝ) / 255 - 1| ≤ 1 / 255 := by
  have h := claim_C5_hex_roundtrip 0.5 0.25 1 (by norm_num) (by norm_num) (by norm_num)
    (by norm_num) (by norm_num) (by norm_num)
  have e1 : ⌊(0.5 : ℝ) * 255⌋ = 127 := by norm_num
  have e2 : ⌊(0.25 : ℝ) * 255⌋ = 63 := by norm_num
  have e3 : ⌊(1 : ℝ) * 255⌋ = 255 := by norm_num
  rw [e1, e2, e3] at h
  push_cast at h
  exact h

/-- C6 counterexample: the 5-character form "#RGBA" the claim says is accepted
is rejected (only lengths 4 and 7 pass), while the claim's "None on non-hex
digits" fails on "#+1+2+3", whose channel slices parse under int(s, 16)'s
optional sign. -/
theorem claim_C6_counterexample :
    Convert.hexSToRgbF ['#', '1', '2', '3', '4'] strSRGB = none ∧
    Convert.hexSToRgbF ['#', '+', '1', '+', '2', '+', '3'] strSRGB =
      some ((1 : ℝ) / 255, (2 : ℝ) / 255, (3 : ℝ) / 255) := by
  constructor
  · unfold Convert.hexSToRgbF
    rw [if_pos (fun hcon => hcon.2.elim (by decide) (by decide))]
  · show Convert.hexSToRgbF ('#' :: (['+', '1'] ++ ['+', '2'] ++ ['+', '3'])) strSRGB = _
    have h := Convert.hexS_parse_triple ['+', '1'] ['+', '2'] ['+', '3'] 1 2 3
      rfl rfl rfl (by decide) (by decide) (by decide)
    rw [h]
    norm_num

/-- C6 (amended): hexSToRgbF accepts exactly the strings starting with '#' of
total length 4 or 7 whose channel slices parse under Python int(s, 16):
short-form nibbles are duplicated and long-form pairs are read as bytes; every
string of any other length, or without the leading '#', or (in short form) with
a channel character that is not a hex digit, yields none.  (The 5- and
9-character alpha forms #RGBA and #RRGGBBAA are NOT accepted, and int(s, 16)'s
tolerance of a sign character means a non-hex-digit character does not always
force none in long form.) -/
theorem claim_C6_hex_forms_amended :
    (∀ c1 c2 c3 : Char, ∀ v1 v2 v3 : ℕ,
      Convert.hexVal c1 = some v1 → Convert.hexVal c2 = some v2 →
      Convert.hexVal c3 = some v3 →
      Convert.hexSToRgbF ['#', c1, c2, c3] strSRGB =
        some (((16 * v1 + v1 : ℕ) : ℝ) / 255, ((16 * v2 + v2 : ℕ) : ℝ) / 255,
          ((16 * v3 + v3 : ℕ) : ℝ) / 255)) ∧
    (∀ c1 c2 c3 c4 c5 c6 : Char, ∀ v1 v2 v3 v4 v5 v6 : ℕ,
      Convert.hexVal c1 = some v1 → Convert.hexVal c2 = some v2 →
      Convert.hexVal c3 = some v3 → Convert.hexVal c4 = some v4 →
      Convert.hexVal c5 = some v5 → Convert.hexVal c6 = some v6 →
      Convert.hexSToRgbF ['#', c1, c2, c3, c4, c5, c6] strSRGB =
        some (((16 * v1 + v2 : ℕ) : ℝ) / 255, ((16 * v3 + v4 : ℕ) : ℝ) / 255,
          ((16 * v5 + v6 : ℕ) : ℝ) / 255)) ∧
    (∀ s trc : Str, s.length ≠ 4 → s.length ≠ 7 → Convert.hexSToRgbF s trc = none) ∧
    (∀ s trc : Str, Convert.startsW s ['#'] = false → Convert.hexSToRgbF s trc = none) ∧
    (∀ c1 c2 c3 : Char, ∀ trc : Str,
      Convert.hexVal c1 = none ∨ Convert.hexVal c2 = none ∨ Convert.hexVal c3 = none →
      Convert.hexSToRgbF ['#', c1, c2, c3] trc = none) := by
  refine ⟨?_, ?_, ?_, ?_, ?_⟩
  · intro c1 c2 c3 v1 v2 v3 h1 h2 h3
    have hstart : Convert.startsW ['#', c1, c2, c3] ['#'] = true := by
      simp [Convert.startsW]
    have hlen : (['#', c1, c2, c3] : Str).length = 4 := rfl
    unfold Convert.hexSToRgbF
    rw [if_neg (not_not_intro ⟨hstart, Or.inl hlen⟩)]
    dsimp only
    rw [if_pos hlen, if_pos hlen, if_pos hlen]
    rw [show ((['#', c1, c2, c3] : Str).drop 1).take 1 ++
        ((['#', c1, c2, c3] : Str).drop 1).take 1 = [c1, c1] from rfl,
      show ((['#', c1, c2, c3] : Str).drop 2).take 1 ++
        ((['#', c1, c2, c3] : Str).drop 2).take 1 = [c2, c2] from rfl,
      show ((['#', c1, c2, c3] : Str).drop 3).take 1 ++
        ((['#', c1, c2, c3] : Str).drop 3).take 1 = [c3, c3] from rfl]
    rw [Convert.pyIntBase16_pair c1 c1 v1 v1 h1 h1,
      Convert.pyIntBase16_pair c2 c2 v2 v2 h2 h2,
      Convert.pyIntBase16_pair c3 c3 v3 v3 h3 h3]
    dsimp only
    rw [if_pos rfl]
    simp only [Int.cast_natCast]
  · intro c1 c2 c3 c4 c5 c6 v1 v2 v3 v4 v5 v6 h1 h2 h3 h4 h5 h6
    have hstart : Convert.startsW ['#', c1, c2, c3, c4, c5, c6] ['#'] = true := by
      simp [Convert.startsW]
    have hlen : (['#', c1, c2, c3, c4, c5, c6] : Str).length = 7 := rfl
    have hne : ¬((['#', c1, c2, c3, c4, c5, c6] : Str).length = 4) := by
      rw [hlen]
      norm_num
    unfold Convert.hexSToRgbF
    rw [if_neg (not_not_intro ⟨hstart, Or.inr hlen⟩)]
    dsimp only
    rw [if_neg hne, if_neg hne, if_neg hne]
    rw [show ((['#', c1, c2, c3, c4, c5, c6] : Str).drop 1).take 2 = [c1, c2] from rfl,
      show ((['#', c1, c2, c3, c4, c5, c6] : Str).drop 3).take 2 = [c3, c4] from rfl,
      show ((['#', c1, c2, c3, c4, c5, c6] : Str).drop 5).take 2 = [c5, c6] from rfl]
    rw [Convert.pyIntBase16_pair c1 c2 v1 v2 h1 h2,
      Convert.pyIntBase16_pair c3 c4 v3 v4 h3 h4,
      Convert.pyIntBase16_pair c5 c6 v5 v6 h5 h6]
    dsimp only
    rw [if_pos rfl]
    simp only [Int.cast_natCast]
  · intro s trc h4 h7
    unfold Convert.hexSToRgbF
    rw [if_pos (fun hcon => hcon.2.elim h4 h7)]
  · intro s trc h
    unfold Convert.hexSToRgbF
    have hns : ¬(Convert.startsW s ['#'] = true ∧ (s.length = 4 ∨ s.length = 7)) := by
      intro hcon
      rw [h] at hcon
      exact Bool.false_ne_true hcon.1
    rw [if_pos hns]
  · intro c1 c2 c3 trc hor
    have hstart : Convert.startsW ['#', c1, c2, c3] ['#'] = true := by
      simp [Convert.startsW]
    have hlen : (['#', c1, c2, c3] : Str).length = 4 := rfl
    unfold Convert.hexSToRgbF
    rw [if_neg (not_not_intro ⟨hstart, Or.inl hlen⟩)]
    dsimp only
    rw [if_pos hlen, if_pos hlen, if_pos hlen]
    rw [show ((['#', c1, c2, c3] : Str).drop 1).take 1 ++
        ((['#', c1, c2, c3] : Str).drop 1).take 1 = [c1, c1] from rfl,
      show ((['#', c1, c2, c3] : Str).drop 2).take 1 ++
        ((['#', c1, c2, c3] : Str).drop 2).take 1 = [c2, c2] from rfl,
      show ((['#', c1, c2, c3] : Str).drop 3).take 1 ++
        ((['#', c1, c2, c3] : Str).drop 3).take 1 = [c3, c3] from rfl]
    rcases hc1 : Convert.hexVal c1 with _ | v1
    · rw [Convert.pyIntBase16_dup_none c1 hc1]
    · rw [Convert.pyIntBase16_pair c1 c1 v1 v1 hc1 hc1]
      rcases hc2 : Convert.hexVal c2 with _ | v2
      · rw [Convert.pyIntBase16_dup_none c2 hc2]
      · rw [Convert.pyIntBase16_pair c2 c2 v2 v2 hc2 hc2]
        rcases hc3 : Convert.hexVal c3 with _ | v3
        · rw [Convert.pyIntBase16_dup_none c3 hc3]
        · exfalso
          rcases hor with h | h | h <;> simp_all

/-- C6 witness: the amended acceptance and rejection rules evaluated at
concrete inputs: "#1aF", "#00ff80", the 6-character "#12345", a string missing
its '#', and the short form "#g12" with a non-hex digit. -/
theorem claim_C6_witness :
    Convert.hexSToRgbF ['#', '1', 'a', 'F'] strSRGB =
      some (((16 * 1 + 1 : ℕ) : ℝ) / 255, ((16 * 10 + 10 : ℕ) : ℝ) / 255,
        ((16 * 15 + 15 : ℕ) : ℝ) / 255) ∧
    Convert.hexSToRgbF ['#', '0', '0', 'f', 'f', '8', '0'] strSRGB =
      some (((16 * 0 + 0 : ℕ) : ℝ) / 255, ((16 * 15 + 15 : ℕ) : ℝ) / 255,
        ((16 * 8 + 0 : ℕ) : ℝ) / 255) ∧
    Convert.hexSToRgbF ['#', '1', '2', '3', '4', '5'] strSRGB = none ∧
    Convert.hexSToRgbF ['1', '2', '3', '4'] strSRGB = none ∧
    Convert.hexSToRgbF ['#', 'g', '1', '2'] strSRGB = none :=
  ⟨claim_C6_hex_forms_amended.1 '1' 'a' 'F' 1 10 15 (by decide) (by decide) (by decide),
   claim_C6_hex_forms_amended.2.1 '0' '0' 'f' 'f' '8' '0' 0 0 15 15 8 0
     (by decide) (by decide) (by decide) (by decide) (by decide) (by decide),
   claim_C6_hex_forms_amended.2.2.1 ['#', '1', '2', '3', '4', '5'] strSRGB
     (by decide) (by decide),
   claim_C6_hex_forms_amended.2.2.2.1 ['1', '2', '3', '4'] strSRGB (by decide),
   claim_C6_hex_forms_amended.2.2.2.2 'g' '1' '2' strSRGB (Or.inl (by decide))⟩

/-- C10: the oklab()/oklch() parsers never fail on out-of-range numerics: every
triple they return is a valid RGB triple in the unit cube, and on any string
with the right prefix whose content splits into parsing numeric tokens (shown
here for the plain non-percent token forms) they return some of the conversion
of the clamped components: L clamped to [0,1], a and b to [-0.4,0.4], c to
[0,0.4]. -/
theorem claim_C10_clamping :
    (∀ stx trc : Str, ∀ t : ℝ × ℝ × ℝ,
      Convert.oklabSToRgbF stx trc = some t → inUnit t) ∧
    (∀ stx trc : Str, ∀ t : ℝ × ℝ × ℝ,
      Convert.oklchSToRgbF stx trc = some t → inUnit t) ∧
    (∀ stx trc tL ta tb : Str, ∀ qL qa qb : ℚ,
      Convert.startsW stx ['o', 'k', 'l', 'a', 'b'] = true →
      Convert.pySplitWS (Convert.pyStrip (stx.drop 5) ['(', ' ', ')']) = [tL, ta, tb] →
      Convert.endsW tL ['%'] = false → Convert.endsW ta ['%'] = false →
      Convert.endsW tb ['%'] = false →
      Convert.pyFloatQ tL = some qL → Convert.pyFloatQ ta = some qa →
      Convert.pyFloatQ tb = some qb →
      Convert.oklabSToRgbF stx trc =
        some (Convert.oklabValToRgbF (Convert.clampF (qL : ℝ) 1 0)
          (Convert.clampF (qa : ℝ) 0.4 (-0.4)) (Convert.clampF (qb : ℝ) 0.4 (-0.4)) trc)) ∧
    (∀ stx trc tL tc th : Str, ∀ qL qc : ℚ, ∀ hv : ℝ,
      Convert.startsW stx ['o', 'k', 'l', 'c', 'h'] = true →
      Convert.pySplitWS (Convert.pyStrip (stx.drop 5) ['(', ' ', ')']) = [tL, tc, th] →
      Convert.endsW tL ['%'] = false → Convert.endsW tc ['%'] = false →
      Convert.pyFloatQ tL = some qL → Convert.pyFloatQ tc = some qc →
      Convert.angleStoDeg th = some hv →
      Convert.oklchSToRgbF stx trc =
        some (Convert.oklchToRgbF (Convert.clampF (qL : ℝ) 1 0 * 100)
          (Convert.clampF (qc : ℝ) 0.4 0) hv (-1) trc)) := by
  refine ⟨?_, ?_, ?_, ?_⟩
  · intro stx trc t h
    unfold Convert.oklabSToRgbF at h
    split at h
    · exact Option.noConfusion h
    · split at h
      · dsimp only at h
        split at h
        · obtain rfl : _ = t := Option.some.inj h
          exact Convert.oklabValToRgbF_mem _ _ _ _
        · exact Option.noConfusion h
      · exact Option.noConfusion h
  · intro stx trc t h
    unfold Convert.oklchSToRgbF at h
    split at h
    · exact Option.noConfusion h
    · split at h
      · dsimp only at h
        split at h
        · obtain rfl : _ = t := Option.some.inj h
          exact Convert.oklchToRgbF_mem _ _ _ _ _
        · exact Option.noConfusion h
      · exact Option.noConfusion h
  · intro stx trc tL ta tb qL qa qb hstart hsplit heL heA heB hqL hqA hqB
    unfold Convert.oklabSToRgbF
    rw [if_neg (not_not_intro hstart)]
    rw [hsplit]
    dsimp only
    simp only [heL, heA, heB, Bool.false_eq_true, if_false, hqL, hqA, hqB, Option.map_some']
  · intro stx trc tL tc th qL qc hv hstart hsplit heL heC hqL hqC hH
    unfold Convert.oklchSToRgbF
    rw [if_neg (not_not_intro hstart)]
    rw [hsplit]
    dsimp only
    simp only [heL, heC, Bool.false_eq_true, if_false, hqL, hqC, hH, Option.map_some']

/-- C10 witness: "oklab(2 -0.9 0.9)" and "oklch(2 3 90)" parse to the clamped
conversions and land in the unit cube, although 2, -0.9, 0.9 and 3 are out of
range. -/
theorem claim_C10_witness :
    Convert.oklabSToRgbF
      ['o', 'k', 'l', 'a', 'b', '(', '2', ' ', '-', '0', '.', '9', ' ', '0', '.', '9', ')']
      strSRGB =
      some (Convert.oklabValToRgbF (Convert.clampF ((2 : ℚ) : ℝ) 1 0)
        (Convert.clampF ((-9/10 : ℚ) : ℝ) 0.4 (-0.4))
        (Convert.clampF ((9/10 : ℚ) : ℝ) 0.4 (-0.4)) strSRGB) ∧
    inUnit (Convert.oklabValToRgbF (Convert.clampF ((2 : ℚ) : ℝ) 1 0)
        (Convert.clampF ((-9/10 : ℚ) : ℝ) 0.4 (-0.4))
        (Convert.clampF ((9/10 : ℚ) : ℝ) 0.4 (-0.4)) strSRGB) ∧
    Convert.oklchSToRgbF
      ['o', 'k', 'l', 'c', 'h', '(', '2', ' ', '3', ' ', '9', '0', ')'] strSRGB =
      some (Convert.oklchToRgbF (Convert.clampF ((2 : ℚ) : ℝ) 1 0 * 100)
        (Convert.clampF ((3 : ℚ) : ℝ) 0.4 0) 90 (-1) strSRGB) ∧
    inUnit (Convert.oklchToRgbF (Convert.clampF ((2 : ℚ) : ℝ) 1 0 * 100)
        (Convert.clampF ((3 : ℚ) : ℝ) 0.4 0) 90 (-1) strSRGB) := by
  have hL : Convert.pyFloatQ ['2'] = some 2 := by
    rw [Convert.pyFloatQ_eval ['2'] (1, 2, 0, 0, 0) (by decide)]
    norm_num [Convert.floatVal]
  have hA : Convert.pyFloatQ ['-', '0', '.', '9'] = some (-9/10) := by
    rw [Convert.pyFloatQ_eval ['-', '0', '.', '9'] (-1, 0, 9, 1, 0) (by decide)]
    norm_num [Convert.floatVal]
  have hB : Convert.pyFloatQ ['0', '.', '9'] = some (9/10) := by
    rw [Convert.pyFloatQ_eval ['0', '.', '9'] (1, 0, 9, 1, 0) (by decide)]
    norm_num [Convert.floatVal]
  have hC : Convert.pyFloatQ ['3'] = some 3 := by
    rw [Convert.pyFloatQ_eval ['3'] (1, 3, 0, 0, 0) (by decide)]
    norm_num [Convert.floatVal]
  have hH : Convert.angleStoDeg ['9', '0'] = some 90 := by
    unfold Convert.angleStoDeg
    rw [if_neg (by decide), if_neg (by decide), if_neg (by decide), if_neg (by decide)]
    rw [Convert.pyFloatQ_eval ['9', '0'] (1, 90, 0, 0, 0) (by decide)]
    simp only [Option.map_some']
    norm_num [Convert.floatVal]
  have h1 := claim_C10_clamping.2.2.1
    ['o', 'k', 'l', 'a', 'b', '(', '2', ' ', '-', '0', '.', '9', ' ', '0', '.', '9', ')']
    strSRGB ['2'] ['-', '0', '.', '9'] ['0', '.', '9'] 2 (-9/10) (9/10)
    (by decide) (by decide) (by decide) (by decide) (by decide) hL hA hB
  have h2 := claim_C10_clamping.2.2.2
    ['o', 'k', 'l', 'c', 'h', '(', '2', ' ', '3', ' ', '9', '0', ')']
    strSRGB ['2'] ['3'] ['9', '0'] 2 3 90
    (by decide) (by decide) (by decide) (by decide) hL hC hH
  exact ⟨h1, claim_C10_clamping.1 _ _ _ h1, h2, claim_C10_clamping.2.1 _ _ _ h2⟩

namespace Convert

/-- Triangle inequality for a four-term sum against term bounds. -/
lemma abs_add4_le (x1 x2 x3 x4 b1 b2 b3 b4 T : ℝ)
    (h1 : |x1| ≤ b1) (h2 : |x2| ≤ b2) (h3 : |x3| ≤ b3) (h4 : |x4| ≤ b4)
    (hT : b1 + b2 + b3 + b4 ≤ T) : |x1 + x2 + x3 + x4| ≤ T := by
  have a1 := abs_add (x1 + x2 + x3) x4
  have a2 := abs_add (x1 + x2) x3
  have a3 := abs_add x1 x2
  linarith

/-- Scaling a bounded quantity by a constant of either sign. -/
lemma abs_mul_le (a u c b : ℝ) (hu : |u| ≤ c) (h1 : a * c ≤ b) (h2 : -(a * c) ≤ b) :
    |a * u| ≤ b := by
  rcases abs_cases a with ⟨ha, ha0⟩ | ⟨ha, ha0⟩
  · rw [abs_mul, ha]
    have := mul_le_mul_of_nonneg_left hu ha0
    linarith
  · rw [abs_mul, ha]
    have := mul_le_mul_of_nonneg_left hu (by linarith : (0 : ℝ) ≤ -a)
    linarith

/-- A perturbation of size d moves a cube of a c-bounded base by at most
d * (3c² + 3cd + d²). -/
lemma cube_diff_bound (x y c d : ℝ) (hx : |x| ≤ c) (hd : |y - x| ≤ d) (hd0 : 0 ≤ d) :
    |y * y * y - x * x * x| ≤ d * (3 * c * c + 3 * c * d + d * d) := by
  obtain ⟨hx1, hx2⟩ := abs_le.mp hx
  obtain ⟨hd1, hd2⟩ := abs_le.mp hd
  have hc0 : 0 ≤ c := le_trans (abs_nonneg x) hx
  have e : y * y * y - x * x * x
      = (y - x) * ((y - x) * (y - x) + 3 * x * (y - x) + 3 * (x * x)) := by ring
  rw [e, abs_mul]
  have a1 : |(y - x) * (y - x)| ≤ d * d := by
    rw [abs_mul]
    exact mul_le_mul hd hd (abs_nonneg _) hd0
  have a2 : |3 * x * (y - x)| ≤ 3 * (c * d) := by
    rw [abs_mul, abs_mul, abs_of_nonneg (by norm_num : (0 : ℝ) ≤ 3)]
    have h1 : |x| * |y - x| ≤ c * d := mul_le_mul hx hd (abs_nonneg _) hc0
    linarith
  have a3 : |3 * (x * x)| ≤ 3 * (c * c) := by
    rw [abs_mul, abs_of_nonneg (by norm_num : (0 : ℝ) ≤ 3), abs_mul]
    have h1 : |x| * |x| ≤ c * c := mul_le_mul hx hx (abs_nonneg _) hc0
    linarith
  have asum : |(y - x) * (y - x) + 3 * x * (y - x) + 3 * (x * x)|
      ≤ d * d + 3 * (c * d) + 3 * (c * c) := by
    have b1 := abs_add ((y - x) * (y - x) + 3 * x * (y - x)) (3 * (x * x))
    have b2 := abs_add ((y - x) * (y - x)) (3 * x * (y - x))
    linarith
  calc |y - x| * |(y - x) * (y - x) + 3 * x * (y - x) + 3 * (x * x)|
      ≤ d * (d * d + 3 * (c * d) + 3 * (c * c)) := mul_le_mul hd asum (abs_nonneg _) hd0
    _ = d * (3 * c * c + 3 * c * d + d * d) := by ring

/-- The cube of a nonnegative real's cube root recovers it. -/
lemma cbrt_cube (x : ℝ) (hx : 0 ≤ x) :
    x ^ ((1 : ℝ) / 3) * x ^ ((1 : ℝ) / 3) * x ^ ((1 : ℝ) / 3) = x := by
  have e : x ^ ((1 : ℝ) / 3) * x ^ ((1 : ℝ) / 3) * x ^ ((1 : ℝ) / 3)
      = (x ^ ((1 : ℝ) / 3)) ^ (3 : ℕ) := by ring
  rw [e, ← Real.rpow_natCast (x ^ ((1 : ℝ) / 3)) 3, ← Real.rpow_mul hx]
  norm_num

/-- Monotone bound for the cube root: x ≤ c³ gives x^(1/3) ≤ c. -/
lemma cbrt_le_of_le (x c : ℝ) (hx : 0 ≤ x) (hc : 0 ≤ c) (h : x ≤ c * c * c) :
    x ^ ((1 : ℝ) / 3) ≤ c := by
  have h1 : x ^ ((1 : ℝ) / 3) ≤ (c * c * c) ^ ((1 : ℝ) / 3) :=
    Real.rpow_le_rpow hx h (by norm_num)
  have h2 : (c * c * c) ^ ((1 : ℝ) / 3) = c := by
    have e : c * c * c = c ^ (3 : ℕ) := by ring
    rw [e, ← Real.rpow_natCast c 3, ← Real.rpow_mul hc]
    norm_num
  linarith

set_option maxHeartbeats 4000000 in
/-- Core of the Oklab round-trip error bound, over abstract cone cube roots
l_, m_, s_: if their cubes are the cone coordinates of (r, g, b) and they are
bounded by 1.001, the reconstruction differs from (r, g, b) by at most 1e-9
per channel. -/
lemma oklab_roundtrip_core (l_ m_ s_ r g b : ℝ)
    (hcl : l_ * l_ * l_ = 0.412221469470763 * r + 0.5363325372617348 * g + 0.0514459932675022 * b)
    (hcm : m_ * m_ * m_ = 0.2119034958178252 * r + 0.6806995506452344 * g + 0.1073969535369406 * b)
    (hcs : s_ * s_ * s_ = 0.0883024591900564 * r + 0.2817188391361215 * g + 0.6299787016738222 * b)
    (hbl : |l_| ≤ 1.001) (hbm : |m_| ≤ 1.001) (hbs : |s_| ≤ 1.001)
    (hr0 : 0 ≤ r) (hr1 : r ≤ 1) (hg0 : 0 ≤ g) (hg1 : g ≤ 1)
    (hb0 : 0 ≤ b) (hb1 : b ≤ 1) :
    |(oklabToLinear (0.210454268309314 * l_ + 0.7936177747023054 * m_ - 0.0040720430116193 * s_) (1.9779985324311684 * l_ - 2.4285922420485799 * m_ + 0.450593709617411 * s_) (0.0259040424655478 * l_ + 0.7827717124575296 * m_ - 0.8086757549230774 * s_)).1 - r| ≤ 1e-9 ∧
    |(oklabToLinear (0.210454268309314 * l_ + 0.7936177747023054 * m_ - 0.0040720430116193 * s_) (1.9779985324311684 * l_ - 2.4285922420485799 * m_ + 0.450593709617411 * s_) (0.0259040424655478 * l_ + 0.7827717124575296 * m_ - 0.8086757549230774 * s_)).2.1 - g| ≤ 1e-9 ∧
    |(oklabToLinear (0.210454268309314 * l_ + 0.7936177747023054 * m_ - 0.0040720430116193 * s_) (1.9779985324311684 * l_ - 2.4285922420485799 * m_ + 0.450593709617411 * s_) (0.0259040424655478 * l_ + 0.7827717124575296 * m_ - 0.8086757549230774 * s_)).2.2 - b| ≤ 1e-9 := by
  obtain ⟨hl1, hl2⟩ := abs_le.mp hbl
  obtain ⟨hm1, hm2⟩ := abs_le.mp hbm
  obtain ⟨hs1, hs2⟩ := abs_le.mp hbs
  have hd1 : |((0.210454268309314 * l_ + 0.7936177747023054 * m_ - 0.0040720430116193 * s_) + 0.3963377773761749 * (1.9779985324311684 * l_ - 2.4285922420485799 * m_ + 0.450593709617411 * s_) + 0.2158037573099136 * (0.0259040424655478 * l_ + 0.7827717124575296 * m_ - 0.8086757549230774 * s_)) - l_| ≤ 7.1e-16 :=
    abs_le.mpr ⟨by linarith, by linarith⟩
  have hd2 : |((0.210454268309314 * l_ + 0.7936177747023054 * m_ - 0.0040720430116193 * s_) - 0.1055613458156586 * (1.9779985324311684 * l_ - 2.4285922420485799 * m_ + 0.450593709617411 * s_) - 0.0638541728258133 * (0.0259040424655478 * l_ + 0.7827717124575296 * m_ - 0.8086757549230774 * s_)) - m_| ≤ 7.1e-16 :=
    abs_le.mpr ⟨by linarith, by linarith⟩
  have hd3 : |((0.210454268309314 * l_ + 0.7936177747023054 * m_ - 0.0040720430116193 * s_) - 0.0894841775298119 * (1.9779985324311684 * l_ - 2.4285922420485799 * m_ + 0.450593709617411 * s_) - 1.2914855480194092 * (0.0259040424655478 * l_ + 0.7827717124575296 * m_ - 0.8086757549230774 * s_)) - s_| ≤ 7.1e-16 :=
    abs_le.mpr ⟨by linarith, by linarith⟩
  have hq1 : |((0.210454268309314 * l_ + 0.7936177747023054 * m_ - 0.0040720430116193 * s_) + 0.3963377773761749 * (1.9779985324311684 * l_ - 2.4285922420485799 * m_ + 0.450593709617411 * s_) + 0.2158037573099136 * (0.0259040424655478 * l_ + 0.7827717124575296 * m_ - 0.8086757549230774 * s_)) * ((0.210454268309314 * l_ + 0.7936177747023054 * m_ - 0.0040720430116193 * s_) + 0.3963377773761749 * (1.9779985324311684 * l_ - 2.4285922420485799 * m_ + 0.450593709617411 * s_) + 0.2158037573099136 * (0.0259040424655478 * l_ + 0.7827717124575296 * m_ - 0.8086757549230774 * s_)) * ((0.210454268309314 * l_ + 0.7936177747023054 * m_ - 0.0040720430116193 * s_) + 0.3963377773761749 * (1.9779985324311684 * l_ - 2.4285922420485799 * m_ + 0.450593709617411 * s_) + 0.2158037573099136 * (0.0259040424655478 * l_ + 0.7827717124575296 * m_ - 0.8086757549230774 * s_)) - l_ * l_ * l_| ≤ 2.2e-15 :=
    le_trans (cube_diff_bound l_ ((0.210454268309314 * l_ + 0.7936177747023054 * m_ - 0.0040720430116193 * s_) + 0.3963377773761749 * (1.9779985324311684 * l_ - 2.4285922420485799 * m_ + 0.450593709617411 * s_) + 0.2158037573099136 * (0.0259040424655478 * l_ + 0.7827717124575296 * m_ - 0.8086757549230774 * s_)) 1.001 7.1e-16 hbl hd1 (by norm_num))
      (by norm_num)
  have hq2 : |((0.210454268309314 * l_ + 0.7936177747023054 * m_ - 0.0040720430116193 * s_) - 0.1055613458156586 * (1.9779985324311684 * l_ - 2.4285922420485799 * m_ + 0.450593709617411 * s_) - 0.0638541728258133 * (0.0259040424655478 * l_ + 0.7827717124575296 * m_ - 0.8086757549230774 * s_)) * ((0.210454268309314 * l_ + 0.7936177747023054 * m_ - 0.0040720430116193 * s_) - 0.1055613458156586 * (1.9779985324311684 * l_ - 2.4285922420485799 * m_ + 0.450593709617411 * s_) - 0.0638541728258133 * (0.0259040424655478 * l_ + 0.7827717124575296 * m_ - 0.8086757549230774 * s_)) * ((0.210454268309314 * l_ + 0.7936177747023054 * m_ - 0.0040720430116193 * s_) - 0.1055613458156586 * (1.9779985324311684 * l_ - 2.4285922420485799 * m_ + 0.450593709617411 * s_) - 0.0638541728258133 * (0.0259040424655478 * l_ + 0.7827717124575296 * m_ - 0.8086757549230774 * s_)) - m_ * m_ * m_| ≤ 2.2e-15 :=
    le_trans (cube_diff_bound m_ ((0.210454268309314 * l_ + 0.7936177747023054 * m_ - 0.0040720430116193 * s_) - 0.1055613458156586 * (1.9779985324311684 * l_ - 2.4285922420485799 * m_ + 0.450593709617411 * s_) - 0.0638541728258133 * (0.0259040424655478 * l_ + 0.7827717124575296 * m_ - 0.8086757549230774 * s_)) 1.001 7.1e-16 hbm hd2 (by norm_num))
      (by norm_num)
  have hq3 : |((0.210454268309314 * l_ + 0.7936177747023054 * m_ - 0.0040720430116193 * s_) - 0.0894841775298119 * (1.9779985324311684 * l_ - 2.4285922420485799 * m_ + 0.450593709617411 * s_) - 1.2914855480194092 * (0.0259040424655478 * l_ + 0.7827717124575296 * m_ - 0.8086757549230774 * s_)) * ((0.210454268309314 * l_ + 0.7936177747023054 * m_ - 0.0040720430116193 * s_) - 0.0894841775298119 * (1.9779985324311684 * l_ - 2.4285922420485799 * m_ + 0.450593709617411 * s_) - 1.2914855480194092 * (0.0259040424655478 * l_ + 0.7827717124575296 * m_ - 0.8086757549230774 * s_)) * ((0.210454268309314 * l_ + 0.7936177747023054 * m_ - 0.0040720430116193 * s_) - 0.0894841775298119 * (1.9779985324311684 * l_ - 2.4285922420485799 * m_ + 0.450593709617411 * s_) - 1.2914855480194092 * (0.0259040424655478 * l_ + 0.7827717124575296 * m_ - 0.8086757549230774 * s_)) - s_ * s_ * s_| ≤ 2.2e-15 :=
    le_trans (cube_diff_bound s_ ((0.210454268309314 * l_ + 0.7936177747023054 * m_ - 0.0040720430116193 * s_) - 0.0894841775298119 * (1.9779985324311684 * l_ - 2.4285922420485799 * m_ + 0.450593709617411 * s_) - 1.2914855480194092 * (0.0259040424655478 * l_ + 0.7827717124575296 * m_ - 0.8086757549230774 * s_)) 1.001 7.1e-16 hbs hd3 (by norm_num))
      (by norm_num)
  have hres1 : |4.0767416360759574 * (l_ * l_ * l_) - 3.3077115392580616 * (m_ * m_ * m_) + 0.2309699031821044 * (s_ * s_ * s_) - r| ≤ 4.5e-16 := by
    rw [hcl, hcm, hcs]
    exact abs_le.mpr ⟨by linarith, by linarith⟩
  have hres2 : |-1.2684379732850317 * (l_ * l_ * l_) + 2.6097573492876887 * (m_ * m_ * m_) - 0.3413193760026573 * (s_ * s_ * s_) - g| ≤ 2.5e-16 := by
    rw [hcl, hcm, hcs]
    exact abs_le.mpr ⟨by linarith, by linarith⟩
  have hres3 : |-0.0041960761386756 * (l_ * l_ * l_) - 0.7034186179359362 * (m_ * m_ * m_) + 1.7076146940746117 * (s_ * s_ * s_) - b| ≤ 1.2e-16 := by
    rw [hcl, hcm, hcs]
    exact abs_le.mpr ⟨by linarith, by linarith⟩
  refine ⟨?_, ?_, ?_⟩
  · show |(4.0767416360759574 * (((0.210454268309314 * l_ + 0.7936177747023054 * m_ - 0.0040720430116193 * s_) + 0.3963377773761749 * (1.9779985324311684 * l_ - 2.4285922420485799 * m_ + 0.450593709617411 * s_) + 0.2158037573099136 * (0.0259040424655478 * l_ + 0.7827717124575296 * m_ - 0.8086757549230774 * s_)) * ((0.210454268309314 * l_ + 0.7936177747023054 * m_ - 0.0040720430116193 * s_) + 0.3963377773761749 * (1.9779985324311684 * l_ - 2.4285922420485799 * m_ + 0.450593709617411 * s_) + 0.2158037573099136 * (0.0259040424655478 * l_ + 0.7827717124575296 * m_ - 0.8086757549230774 * s_)) * ((0.210454268309314 * l_ + 0.7936177747023054 * m_ - 0.0040720430116193 * s_) + 0.3963377773761749 * (1.9779985324311684 * l_ - 2.4285922420485799 * m_ + 0.450593709617411 * s_) + 0.2158037573099136 * (0.0259040424655478 * l_ + 0.7827717124575296 * m_ - 0.8086757549230774 * s_))) - 3.3077115392580616 * (((0.210454268309314 * l_ + 0.7936177747023054 * m_ - 0.0040720430116193 * s_) - 0.1055613458156586 * (1.9779985324311684 * l_ - 2.4285922420485799 * m_ + 0.450593709617411 * s_) - 0.0638541728258133 * (0.0259040424655478 * l_ + 0.7827717124575296 * m_ - 0.8086757549230774 * s_)) * ((0.210454268309314 * l_ + 0.7936177747023054 * m_ - 0.0040720430116193 * s_) - 0.1055613458156586 * (1.9779985324311684 * l_ - 2.4285922420485799 * m_ + 0.450593709617411 * s_) - 0.0638541728258133 * (0.0259040424655478 * l_ + 0.7827717124575296 * m_ - 0.8086757549230774 * s_)) * ((0.210454268309314 * l_ + 0.7936177747023054 * m_ - 0.0040720430116193 * s_) - 0.1055613458156586 * (1.9779985324311684 * l_ - 2.4285922420485799 * m_ + 0.450593709617411 * s_) - 0.0638541728258133 * (0.0259040424655478 * l_ + 0.7827717124575296 * m_ - 0.8086757549230774 * s_))) + 0.2309699031821044 * (((0.210454268309314 * l_ + 0.7936177747023054 * m_ - 0.0040720430116193 * s_) - 0.0894841775298119 * (1.9779985324311684 * l_ - 2.4285922420485799 * m_ + 0.450593709617411 * s_) - 1.2914855480194092 * (0.0259040424655478 * l_ + 0.7827717124575296 * m_ - 0.8086757549230774 * s_)) * ((0.210454268309314 * l_ + 0.7936177747023054 * m_ - 0.0040720430116193 * s_) - 0.0894841775298119 * (1.9779985324311684 * l_ - 2.4285922420485799 * m_ + 0.450593709617411 * s_) - 1.2914855480194092 * (0.0259040424655478 * l_ + 0.7827717124575296 * m_ - 0.8086757549230774 * s_)) * ((0.210454268309314 * l_ + 0.7936177747023054 * m_ - 0.0040720430116193 * s_) - 0.0894841775298119 * (1.9779985324311684 * l_ - 2.4285922420485799 * m_ + 0.450593709617411 * s_) - 1.2914855480194092 * (0.0259040424655478 * l_ + 0.7827717124575296 * m_ - 0.8086757549230774 * s_)))) - r| ≤ 1e-9
    have e : (4.0767416360759574 * (((0.210454268309314 * l_ + 0.7936177747023054 * m_ - 0.0040720430116193 * s_) + 0.3963377773761749 * (1.9779985324311684 * l_ - 2.4285922420485799 * m_ + 0.450593709617411 * s_) + 0.2158037573099136 * (0.0259040424655478 * l_ + 0.7827717124575296 * m_ - 0.8086757549230774 * s_)) * ((0.210454268309314 * l_ + 0.7936177747023054 * m_ - 0.0040720430116193 * s_) + 0.3963377773761749 * (1.9779985324311684 * l_ - 2.4285922420485799 * m_ + 0.450593709617411 * s_) + 0.2158037573099136 * (0.0259040424655478 * l_ + 0.7827717124575296 * m_ - 0.8086757549230774 * s_)) * ((0.210454268309314 * l_ + 0.7936177747023054 * m_ - 0.0040720430116193 * s_) + 0.3963377773761749 * (1.9779985324311684 * l_ - 2.4285922420485799 * m_ + 0.450593709617411 * s_) + 0.2158037573099136 * (0.0259040424655478 * l_ + 0.7827717124575296 * m_ - 0.8086757549230774 * s_))) - 3.3077115392580616 * (((0.210454268309314 * l_ + 0.7936177747023054 * m_ - 0.0040720430116193 * s_) - 0.1055613458156586 * (1.9779985324311684 * l_ - 2.4285922420485799 * m_ + 0.450593709617411 * s_) - 0.0638541728258133 * (0.0259040424655478 * l_ + 0.7827717124575296 * m_ - 0.8086757549230774 * s_)) * ((0.210454268309314 * l_ + 0.7936177747023054 * m_ - 0.0040720430116193 * s_) - 0.1055613458156586 * (1.9779985324311684 * l_ - 2.4285922420485799 * m_ + 0.450593709617411 * s_) - 0.0638541728258133 * (0.0259040424655478 * l_ + 0.7827717124575296 * m_ - 0.8086757549230774 * s_)) * ((0.210454268309314 * l_ + 0.7936177747023054 * m_ - 0.0040720430116193 * s_) - 0.1055613458156586 * (1.9779985324311684 * l_ - 2.4285922420485799 * m_ + 0.450593709617411 * s_) - 0.0638541728258133 * (0.0259040424655478 * l_ + 0.7827717124575296 * m_ - 0.8086757549230774 * s_))) + 0.2309699031821044 * (((0.210454268309314 * l_ + 0.7936177747023054 * m_ - 0.0040720430116193 * s_) - 0.0894841775298119 * (1.9779985324311684 * l_ - 2.4285922420485799 * m_ + 0.450593709617411 * s_) - 1.2914855480194092 * (0.0259040424655478 * l_ + 0.7827717124575296 * m_ - 0.8086757549230774 * s_)) * ((0.210454268309314 * l_ + 0.7936177747023054 * m_ - 0.0040720430116193 * s_) - 0.0894841775298119 * (1.9779985324311684 * l_ - 2.4285922420485799 * m_ + 0.450593709617411 * s_) - 1.2914855480194092 * (0.0259040424655478 * l_ + 0.7827717124575296 * m_ - 0.8086757549230774 * s_)) * ((0.210454268309314 * l_ + 0.7936177747023054 * m_ - 0.0040720430116193 * s_) - 0.0894841775298119 * (1.9779985324311684 * l_ - 2.4285922420485799 * m_ + 0.450593709617411 * s_) - 1.2914855480194092 * (0.0259040424655478 * l_ + 0.7827717124575296 * m_ - 0.8086757549230774 * s_)))) - r =
        (4.0767416360759574) * (((0.210454268309314 * l_ + 0.7936177747023054 * m_ - 0.0040720430116193 * s_) + 0.3963377773761749 * (1.9779985324311684 * l_ - 2.4285922420485799 * m_ + 0.450593709617411 * s_) + 0.2158037573099136 * (0.0259040424655478 * l_ + 0.7827717124575296 * m_ - 0.8086757549230774 * s_)) * ((0.210454268309314 * l_ + 0.7936177747023054 * m_ - 0.0040720430116193 * s_) + 0.3963377773761749 * (1.9779985324311684 * l_ - 2.4285922420485799 * m_ + 0.450593709617411 * s_) + 0.2158037573099136 * (0.0259040424655478 * l_ + 0.7827717124575296 * m_ - 0.8086757549230774 * s_)) * ((0.210454268309314 * l_ + 0.7936177747023054 * m_ - 0.0040720430116193 * s_) + 0.3963377773761749 * (1.9779985324311684 * l_ - 2.4285922420485799 * m_ + 0.450593709617411 * s_) + 0.2158037573099136 * (0.0259040424655478 * l_ + 0.7827717124575296 * m_ - 0.8086757549230774 * s_)) - l_ * l_ * l_) +
        (-3.3077115392580616) * (((0.210454268309314 * l_ + 0.7936177747023054 * m_ - 0.0040720430116193 * s_) - 0.1055613458156586 * (1.9779985324311684 * l_ - 2.4285922420485799 * m_ + 0.450593709617411 * s_) - 0.0638541728258133 * (0.0259040424655478 * l_ + 0.7827717124575296 * m_ - 0.8086757549230774 * s_)) * ((0.210454268309314 * l_ + 0.7936177747023054 * m_ - 0.0040720430116193 * s_) - 0.1055613458156586 * (1.9779985324311684 * l_ - 2.4285922420485799 * m_ + 0.450593709617411 * s_) - 0.0638541728258133 * (0.0259040424655478 * l_ + 0.7827717124575296 * m_ - 0.8086757549230774 * s_)) * ((0.210454268309314 * l_ + 0.7936177747023054 * m_ - 0.0040720430116193 * s_) - 0.1055613458156586 * (1.9779985324311684 * l_ - 2.4285922420485799 * m_ + 0.450593709617411 * s_) - 0.0638541728258133 * (0.0259040424655478 * l_ + 0.7827717124575296 * m_ - 0.8086757549230774 * s_)) - m_ * m_ * m_) +
        (0.2309699031821044) * (((0.210454268309314 * l_ + 0.7936177747023054 * m_ - 0.0040720430116193 * s_) - 0.0894841775298119 * (1.9779985324311684 * l_ - 2.4285922420485799 * m_ + 0.450593709617411 * s_) - 1.2914855480194092 * (0.0259040424655478 * l_ + 0.7827717124575296 * m_ - 0.8086757549230774 * s_)) * ((0.210454268309314 * l_ + 0.7936177747023054 * m_ - 0.0040720430116193 * s_) - 0.0894841775298119 * (1.9779985324311684 * l_ - 2.4285922420485799 * m_ + 0.450593709617411 * s_) - 1.2914855480194092 * (0.0259040424655478 * l_ + 0.7827717124575296 * m_ - 0.8086757549230774 * s_)) * ((0.210454268309314 * l_ + 0.7936177747023054 * m_ - 0.0040720430116193 * s_) - 0.0894841775298119 * (1.9779985324311684 * l_ - 2.4285922420485799 * m_ + 0.450593709617411 * s_) - 1.2914855480194092 * (0.0259040424655478 * l_ + 0.7827717124575296 * m_ - 0.8086757549230774 * s_)) - s_ * s_ * s_) +
        (4.0767416360759574 * (l_ * l_ * l_) - 3.3077115392580616 * (m_ * m_ * m_) + 0.2309699031821044 * (s_ * s_ * s_) - r) := by ring
    rw [e]
    refine abs_add4_le _ _ _ _ 9e-15 7.3e-15 5.2e-16 4.5e-16 1e-9 ?_ ?_ ?_ hres1 (by norm_num)
    · exact abs_mul_le (4.0767416360759574) _ 2.2e-15 9e-15 hq1 (by norm_num) (by norm_num)
    · exact abs_mul_le (-3.3077115392580616) _ 2.2e-15 7.3e-15 hq2 (by norm_num) (by norm_num)
    · exact abs_mul_le (0.2309699031821044) _ 2.2e-15 5.2e-16 hq3 (by norm_num) (by norm_num)
  · show |(-1.2684379732850317 * (((0.210454268309314 * l_ + 0.7936177747023054 * m_ - 0.0040720430116193 * s_) + 0.3963377773761749 * (1.9779985324311684 * l_ - 2.4285922420485799 * m_ + 0.450593709617411 * s_) + 0.2158037573099136 * (0.0259040424655478 * l_ + 0.7827717124575296 * m_ - 0.8086757549230774 * s_)) * ((0.210454268309314 * l_ + 0.7936177747023054 * m_ - 0.0040720430116193 * s_) + 0.3963377773761749 * (1.9779985324311684 * l_ - 2.4285922420485799 * m_ + 0.450593709617411 * s_) + 0.2158037573099136 * (0.0259040424655478 * l_ + 0.7827717124575296 * m_ - 0.8086757549230774 * s_)) * ((0.210454268309314 * l_ + 0.7936177747023054 * m_ - 0.0040720430116193 * s_) + 0.3963377773761749 * (1.9779985324311684 * l_ - 2.4285922420485799 * m_ + 0.450593709617411 * s_) + 0.2158037573099136 * (0.0259040424655478 * l_ + 0.7827717124575296 * m_ - 0.8086757549230774 * s_))) + 2.6097573492876887 * (((0.210454268309314 * l_ + 0.7936177747023054 * m_ - 0.0040720430116193 * s_) - 0.1055613458156586 * (1.9779985324311684 * l_ - 2.4285922420485799 * m_ + 0.450593709617411 * s_) - 0.0638541728258133 * (0.0259040424655478 * l_ + 0.7827717124575296 * m_ - 0.8086757549230774 * s_)) * ((0.210454268309314 * l_ + 0.7936177747023054 * m_ - 0.0040720430116193 * s_) - 0.1055613458156586 * (1.9779985324311684 * l_ - 2.4285922420485799 * m_ + 0.450593709617411 * s_) - 0.0638541728258133 * (0.0259040424655478 * l_ + 0.7827717124575296 * m_ - 0.8086757549230774 * s_)) * ((0.210454268309314 * l_ + 0.7936177747023054 * m_ - 0.0040720430116193 * s_) - 0.1055613458156586 * (1.9779985324311684 * l_ - 2.4285922420485799 * m_ + 0.450593709617411 * s_) - 0.0638541728258133 * (0.0259040424655478 * l_ + 0.7827717124575296 * m_ - 0.8086757549230774 * s_))) - 0.3413193760026573 * (((0.210454268309314 * l_ + 0.7936177747023054 * m_ - 0.0040720430116193 * s_) - 0.0894841775298119 * (1.9779985324311684 * l_ - 2.4285922420485799 * m_ + 0.450593709617411 * s_) - 1.2914855480194092 * (0.0259040424655478 * l_ + 0.7827717124575296 * m_ - 0.8086757549230774 * s_)) * ((0.210454268309314 * l_ + 0.7936177747023054 * m_ - 0.0040720430116193 * s_) - 0.0894841775298119 * (1.9779985324311684 * l_ - 2.4285922420485799 * m_ + 0.450593709617411 * s_) - 1.2914855480194092 * (0.0259040424655478 * l_ + 0.7827717124575296 * m_ - 0.8086757549230774 * s_)) * ((0.210454268309314 * l_ + 0.7936177747023054 * m_ - 0.0040720430116193 * s_) - 0.0894841775298119 * (1.9779985324311684 * l_ - 2.4285922420485799 * m_ + 0.450593709617411 * s_) - 1.2914855480194092 * (0.0259040424655478 * l_ + 0.7827717124575296 * m_ - 0.8086757549230774 * s_)))) - g| ≤ 1e-9
    have e : (-1.2684379732850317 * (((0.210454268309314 * l_ + 0.7936177747023054 * m_ - 0.0040720430116193 * s_) + 0.3963377773761749 * (1.9779985324311684 * l_ - 2.4285922420485799 * m_ + 0.450593709617411 * s_) + 0.2158037573099136 * (0.0259040424655478 * l_ + 0.7827717124575296 * m_ - 0.8086757549230774 * s_)) * ((0.210454268309314 * l_ + 0.7936177747023054 * m_ - 0.0040720430116193 * s_) + 0.3963377773761749 * (1.9779985324311684 * l_ - 2.4285922420485799 * m_ + 0.450593709617411 * s_) + 0.2158037573099136 * (0.0259040424655478 * l_ + 0.7827717124575296 * m_ - 0.8086757549230774 * s_)) * ((0.210454268309314 * l_ + 0.7936177747023054 * m_ - 0.0040720430116193 * s_) + 0.3963377773761749 * (1.9779985324311684 * l_ - 2.4285922420485799 * m_ + 0.450593709617411 * s_) + 0.2158037573099136 * (0.0259040424655478 * l_ + 0.7827717124575296 * m_ - 0.8086757549230774 * s_))) + 2.6097573492876887 * (((0.210454268309314 * l_ + 0.7936177747023054 * m_ - 0.0040720430116193 * s_) - 0.1055613458156586 * (1.9779985324311684 * l_ - 2.4285922420485799 * m_ + 0.450593709617411 * s_) - 0.0638541728258133 * (0.0259040424655478 * l_ + 0.7827717124575296 * m_ - 0.8086757549230774 * s_)) * ((0.210454268309314 * l_ + 0.7936177747023054 * m_ - 0.0040720430116193 * s_) - 0.1055613458156586 * (1.9779985324311684 * l_ - 2.4285922420485799 * m_ + 0.450593709617411 * s_) - 0.0638541728258133 * (0.0259040424655478 * l_ + 0.7827717124575296 * m_ - 0.8086757549230774 * s_)) * ((0.210454268309314 * l_ + 0.7936177747023054 * m_ - 0.0040720430116193 * s_) - 0.1055613458156586 * (1.9779985324311684 * l_ - 2.4285922420485799 * m_ + 0.450593709617411 * s_) - 0.0638541728258133 * (0.0259040424655478 * l_ + 0.7827717124575296 * m_ - 0.8086757549230774 * s_))) - 0.3413193760026573 * (((0.210454268309314 * l_ + 0.7936177747023054 * m_ - 0.0040720430116193 * s_) - 0.0894841775298119 * (1.9779985324311684 * l_ - 2.4285922420485799 * m_ + 0.450593709617411 * s_) - 1.2914855480194092 * (0.0259040424655478 * l_ + 0.7827717124575296 * m_ - 0.8086757549230774 * s_)) * ((0.210454268309314 * l_ + 0.7936177747023054 * m_ - 0.0040720430116193 * s_) - 0.0894841775298119 * (1.9779985324311684 * l_ - 2.4285922420485799 * m_ + 0.450593709617411 * s_) - 1.2914855480194092 * (0.0259040424655478 * l_ + 0.7827717124575296 * m_ - 0.8086757549230774 * s_)) * ((0.210454268309314 * l_ + 0.7936177747023054 * m_ - 0.0040720430116193 * s_) - 0.0894841775298119 * (1.9779985324311684 * l_ - 2.4285922420485799 * m_ + 0.450593709617411 * s_) - 1.2914855480194092 * (0.0259040424655478 * l_ + 0.7827717124575296 * m_ - 0.8086757549230774 * s_)))) - g =
        (-1.2684379732850317) * (((0.210454268309314 * l_ + 0.7936177747023054 * m_ - 0.0040720430116193 * s_) + 0.3963377773761749 * (1.9779985324311684 * l_ - 2.4285922420485799 * m_ + 0.450593709617411 * s_) + 0.2158037573099136 * (0.0259040424655478 * l_ + 0.7827717124575296 * m_ - 0.8086757549230774 * s_)) * ((0.210454268309314 * l_ + 0.7936177747023054 * m_ - 0.0040720430116193 * s_) + 0.3963377773761749 * (1.9779985324311684 * l_ - 2.4285922420485799 * m_ + 0.450593709617411 * s_) + 0.2158037573099136 * (0.0259040424655478 * l_ + 0.7827717124575296 * m_ - 0.8086757549230774 * s_)) * ((0.210454268309314 * l_ + 0.7936177747023054 * m_ - 0.0040720430116193 * s_) + 0.3963377773761749 * (1.9779985324311684 * l_ - 2.4285922420485799 * m_ + 0.450593709617411 * s_) + 0.2158037573099136 * (0.0259040424655478 * l_ + 0.7827717124575296 * m_ - 0.8086757549230774 * s_)) - l_ * l_ * l_) +
        (2.6097573492876887) * (((0.210454268309314 * l_ + 0.7936177747023054 * m_ - 0.0040720430116193 * s_) - 0.1055613458156586 * (1.9779985324311684 * l_ - 2.4285922420485799 * m_ + 0.450593709617411 * s_) - 0.0638541728258133 * (0.0259040424655478 * l_ + 0.7827717124575296 * m_ - 0.8086757549230774 * s_)) * ((0.210454268309314 * l_ + 0.7936177747023054 * m_ - 0.0040720430116193 * s_) - 0.1055613458156586 * (1.9779985324311684 * l_ - 2.4285922420485799 * m_ + 0.450593709617411 * s_) - 0.0638541728258133 * (0.0259040424655478 * l_ + 0.7827717124575296 * m_ - 0.8086757549230774 * s_)) * ((0.210454268309314 * l_ + 0.7936177747023054 * m_ - 0.0040720430116193 * s_) - 0.1055613458156586 * (1.9779985324311684 * l_ - 2.4285922420485799 * m_ + 0.450593709617411 * s_) - 0.0638541728258133 * (0.0259040424655478 * l_ + 0.7827717124575296 * m_ - 0.8086757549230774 * s_)) - m_ * m_ * m_) +
        (-0.3413193760026573) * (((0.210454268309314 * l_ + 0.7936177747023054 * m_ - 0.0040720430116193 * s_) - 0.0894841775298119 * (1.9779985324311684 * l_ - 2.4285922420485799 * m_ + 0.450593709617411 * s_) - 1.2914855480194092 * (0.0259040424655478 * l_ + 0.7827717124575296 * m_ - 0.8086757549230774 * s_)) * ((0.210454268309314 * l_ + 0.7936177747023054 * m_ - 0.0040720430116193 * s_) - 0.0894841775298119 * (1.9779985324311684 * l_ - 2.4285922420485799 * m_ + 0.450593709617411 * s_) - 1.2914855480194092 * (0.0259040424655478 * l_ + 0.7827717124575296 * m_ - 0.8086757549230774 * s_)) * ((0.210454268309314 * l_ + 0.7936177747023054 * m_ - 0.0040720430116193 * s_) - 0.0894841775298119 * (1.9779985324311684 * l_ - 2.4285922420485799 * m_ + 0.450593709617411 * s_) - 1.2914855480194092 * (0.0259040424655478 * l_ + 0.7827717124575296 * m_ - 0.8086757549230774 * s_)) - s_ * s_ * s_) +
        (-1.2684379732850317 * (l_ * l_ * l_) + 2.6097573492876887 * (m_ * m_ * m_) - 0.3413193760026573 * (s_ * s_ * s_) - g) := by ring
    rw [e]
    refine abs_add4_le _ _ _ _ 2.8e-15 5.8e-15 7.6e-16 2.5e-16 1e-9 ?_ ?_ ?_ hres2 (by norm_num)
    · exact abs_mul_le (-1.2684379732850317) _ 2.2e-15 2.8e-15 hq1 (by norm_num) (by norm_num)
    · exact abs_mul_le (2.6097573492876887) _ 2.2e-15 5.8e-15 hq2 (by norm_num) (by norm_num)
    · exact abs_mul_le (-0.3413193760026573) _ 2.2e-15 7.6e-16 hq3 (by norm_num) (by norm_num)
  · show |(-0.0041960761386756 * (((0.210454268309314 * l_ + 0.7936177747023054 * m_ - 0.0040720430116193 * s_) + 0.3963377773761749 * (1.9779985324311684 * l_ - 2.4285922420485799 * m_ + 0.450593709617411 * s_) + 0.2158037573099136 * (0.0259040424655478 * l_ + 0.7827717124575296 * m_ - 0.8086757549230774 * s_)) * ((0.210454268309314 * l_ + 0.7936177747023054 * m_ - 0.0040720430116193 * s_) + 0.3963377773761749 * (1.9779985324311684 * l_ - 2.4285922420485799 * m_ + 0.450593709617411 * s_) + 0.2158037573099136 * (0.0259040424655478 * l_ + 0.7827717124575296 * m_ - 0.8086757549230774 * s_)) * ((0.210454268309314 * l_ + 0.7936177747023054 * m_ - 0.0040720430116193 * s_) + 0.3963377773761749 * (1.9779985324311684 * l_ - 2.4285922420485799 * m_ + 0.450593709617411 * s_) + 0.2158037573099136 * (0.0259040424655478 * l_ + 0.7827717124575296 * m_ - 0.8086757549230774 * s_))) - 0.7034186179359362 * (((0.210454268309314 * l_ + 0.7936177747023054 * m_ - 0.0040720430116193 * s_) - 0.1055613458156586 * (1.9779985324311684 * l_ - 2.4285922420485799 * m_ + 0.450593709617411 * s_) - 0.0638541728258133 * (0.0259040424655478 * l_ + 0.7827717124575296 * m_ - 0.8086757549230774 * s_)) * ((0.210454268309314 * l_ + 0.7936177747023054 * m_ - 0.0040720430116193 * s_) - 0.1055613458156586 * (1.9779985324311684 * l_ - 2.4285922420485799 * m_ + 0.450593709617411 * s_) - 0.0638541728258133 * (0.0259040424655478 * l_ + 0.7827717124575296 * m_ - 0.8086757549230774 * s_)) * ((0.210454268309314 * l_ + 0.7936177747023054 * m_ - 0.0040720430116193 * s_) - 0.1055613458156586 * (1.9779985324311684 * l_ - 2.4285922420485799 * m_ + 0.450593709617411 * s_) - 0.0638541728258133 * (0.0259040424655478 * l_ + 0.7827717124575296 * m_ - 0.8086757549230774 * s_))) + 1.7076146940746117 * (((0.210454268309314 * l_ + 0.7936177747023054 * m_ - 0.0040720430116193 * s_) - 0.0894841775298119 * (1.9779985324311684 * l_ - 2.4285922420485799 * m_ + 0.450593709617411 * s_) - 1.2914855480194092 * (0.0259040424655478 * l_ + 0.7827717124575296 * m_ - 0.8086757549230774 * s_)) * ((0.210454268309314 * l_ + 0.7936177747023054 * m_ - 0.0040720430116193 * s_) - 0.0894841775298119 * (1.9779985324311684 * l_ - 2.4285922420485799 * m_ + 0.450593709617411 * s_) - 1.2914855480194092 * (0.0259040424655478 * l_ + 0.7827717124575296 * m_ - 0.8086757549230774 * s_)) * ((0.210454268309314 * l_ + 0.7936177747023054 * m_ - 0.0040720430116193 * s_) - 0.0894841775298119 * (1.9779985324311684 * l_ - 2.4285922420485799 * m_ + 0.450593709617411 * s_) - 1.2914855480194092 * (0.0259040424655478 * l_ + 0.7827717124575296 * m_ - 0.8086757549230774 * s_)))) - b| ≤ 1e-9
    have e : (-0.0041960761386756 * (((0.210454268309314 * l_ + 0.7936177747023054 * m_ - 0.0040720430116193 * s_) + 0.3963377773761749 * (1.9779985324311684 * l_ - 2.4285922420485799 * m_ + 0.450593709617411 * s_) + 0.2158037573099136 * (0.0259040424655478 * l_ + 0.7827717124575296 * m_ - 0.8086757549230774 * s_)) * ((0.210454268309314 * l_ + 0.7936177747023054 * m_ - 0.0040720430116193 * s_) + 0.3963377773761749 * (1.9779985324311684 * l_ - 2.4285922420485799 * m_ + 0.450593709617411 * s_) + 0.2158037573099136 * (0.0259040424655478 * l_ + 0.7827717124575296 * m_ - 0.8086757549230774 * s_)) * ((0.210454268309314 * l_ + 0.7936177747023054 * m_ - 0.0040720430116193 * s_) + 0.3963377773761749 * (1.9779985324311684 * l_ - 2.4285922420485799 * m_ + 0.450593709617411 * s_) + 0.2158037573099136 * (0.0259040424655478 * l_ + 0.7827717124575296 * m_ - 0.8086757549230774 * s_))) - 0.7034186179359362 * (((0.210454268309314 * l_ + 0.7936177747023054 * m_ - 0.0040720430116193 * s_) - 0.1055613458156586 * (1.9779985324311684 * l_ - 2.4285922420485799 * m_ + 0.450593709617411 * s_) - 0.0638541728258133 * (0.0259040424655478 * l_ + 0.7827717124575296 * m_ - 0.8086757549230774 * s_)) * ((0.210454268309314 * l_ + 0.7936177747023054 * m_ - 0.0040720430116193 * s_) - 0.1055613458156586 * (1.9779985324311684 * l_ - 2.4285922420485799 * m_ + 0.450593709617411 * s_) - 0.0638541728258133 * (0.0259040424655478 * l_ + 0.7827717124575296 * m_ - 0.8086757549230774 * s_)) * ((0.210454268309314 * l_ + 0.7936177747023054 * m_ - 0.0040720430116193 * s_) - 0.1055613458156586 * (1.9779985324311684 * l_ - 2.4285922420485799 * m_ + 0.450593709617411 * s_) - 0.0638541728258133 * (0.0259040424655478 * l_ + 0.7827717124575296 * m_ - 0.8086757549230774 * s_))) + 1.7076146940746117 * (((0.210454268309314 * l_ + 0.7936177747023054 * m_ - 0.0040720430116193 * s_) - 0.0894841775298119 * (1.9779985324311684 * l_ - 2.4285922420485799 * m_ + 0.450593709617411 * s_) - 1.2914855480194092 * (0.0259040424655478 * l_ + 0.7827717124575296 * m_ - 0.8086757549230774 * s_)) * ((0.210454268309314 * l_ + 0.7936177747023054 * m_ - 0.0040720430116193 * s_) - 0.0894841775298119 * (1.9779985324311684 * l_ - 2.4285922420485799 * m_ + 0.450593709617411 * s_) - 1.2914855480194092 * (0.0259040424655478 * l_ + 0.7827717124575296 * m_ - 0.8086757549230774 * s_)) * ((0.210454268309314 * l_ + 0.7936177747023054 * m_ - 0.0040720430116193 * s_) - 0.0894841775298119 * (1.9779985324311684 * l_ - 2.4285922420485799 * m_ + 0.450593709617411 * s_) - 1.2914855480194092 * (0.0259040424655478 * l_ + 0.7827717124575296 * m_ - 0.8086757549230774 * s_)))) - b =
        (-0.0041960761386756) * (((0.210454268309314 * l_ + 0.7936177747023054 * m_ - 0.0040720430116193 * s_) + 0.3963377773761749 * (1.9779985324311684 * l_ - 2.4285922420485799 * m_ + 0.450593709617411 * s_) + 0.2158037573099136 * (0.0259040424655478 * l_ + 0.7827717124575296 * m_ - 0.8086757549230774 * s_)) * ((0.210454268309314 * l_ + 0.7936177747023054 * m_ - 0.0040720430116193 * s_) + 0.3963377773761749 * (1.9779985324311684 * l_ - 2.4285922420485799 * m_ + 0.450593709617411 * s_) + 0.2158037573099136 * (0.0259040424655478 * l_ + 0.7827717124575296 * m_ - 0.8086757549230774 * s_)) * ((0.210454268309314 * l_ + 0.7936177747023054 * m_ - 0.0040720430116193 * s_) + 0.3963377773761749 * (1.9779985324311684 * l_ - 2.4285922420485799 * m_ + 0.450593709617411 * s_) + 0.2158037573099136 * (0.0259040424655478 * l_ + 0.7827717124575296 * m_ - 0.8086757549230774 * s_)) - l_ * l_ * l_) +
        (-0.7034186179359362) * (((0.210454268309314 * l_ + 0.7936177747023054 * m_ - 0.0040720430116193 * s_) - 0.1055613458156586 * (1.9779985324311684 * l_ - 2.4285922420485799 * m_ + 0.450593709617411 * s_) - 0.0638541728258133 * (0.0259040424655478 * l_ + 0.7827717124575296 * m_ - 0.8086757549230774 * s_)) * ((0.210454268309314 * l_ + 0.7936177747023054 * m_ - 0.0040720430116193 * s_) - 0.1055613458156586 * (1.9779985324311684 * l_ - 2.4285922420485799 * m_ + 0.450593709617411 * s_) - 0.0638541728258133 * (0.0259040424655478 * l_ + 0.7827717124575296 * m_ - 0.8086757549230774 * s_)) * ((0.210454268309314 * l_ + 0.7936177747023054 * m_ - 0.0040720430116193 * s_) - 0.1055613458156586 * (1.9779985324311684 * l_ - 2.4285922420485799 * m_ + 0.450593709617411 * s_) - 0.0638541728258133 * (0.0259040424655478 * l_ + 0.7827717124575296 * m_ - 0.8086757549230774 * s_)) - m_ * m_ * m_) +
        (1.7076146940746117) * (((0.210454268309314 * l_ + 0.7936177747023054 * m_ - 0.0040720430116193 * s_) - 0.0894841775298119 * (1.9779985324311684 * l_ - 2.4285922420485799 * m_ + 0.450593709617411 * s_) - 1.2914855480194092 * (0.0259040424655478 * l_ + 0.7827717124575296 * m_ - 0.8086757549230774 * s_)) * ((0.210454268309314 * l_ + 0.7936177747023054 * m_ - 0.0040720430116193 * s_) - 0.0894841775298119 * (1.9779985324311684 * l_ - 2.4285922420485799 * m_ + 0.450593709617411 * s_) - 1.2914855480194092 * (0.0259040424655478 * l_ + 0.7827717124575296 * m_ - 0.8086757549230774 * s_)) * ((0.210454268309314 * l_ + 0.7936177747023054 * m_ - 0.0040720430116193 * s_) - 0.0894841775298119 * (1.9779985324311684 * l_ - 2.4285922420485799 * m_ + 0.450593709617411 * s_) - 1.2914855480194092 * (0.0259040424655478 * l_ + 0.7827717124575296 * m_ - 0.8086757549230774 * s_)) - s_ * s_ * s_) +
        (-0.0041960761386756 * (l_ * l_ * l_) - 0.7034186179359362 * (m_ * m_ * m_) + 1.7076146940746117 * (s_ * s_ * s_) - b) := by ring
    rw [e]
    refine abs_add4_le _ _ _ _ 1e-17 1.6e-15 3.8e-15 1.2e-16 1e-9 ?_ ?_ ?_ hres3 (by norm_num)
    · exact abs_mul_le (-0.0041960761386756) _ 2.2e-15 1e-17 hq1 (by norm_num) (by norm_num)
    · exact abs_mul_le (-0.7034186179359362) _ 2.2e-15 1.6e-15 hq2 (by norm_num) (by norm_num)
    · exact abs_mul_le (1.7076146940746117) _ 2.2e-15 3.8e-15 hq3 (by norm_num) (by norm_num)

end Convert

set_option maxHeartbeats 1000000 in
/-- C2: for every linear-RGB triple with components in [0,1], the round trip
oklabToLinear after linearToOklab reproduces each component to within 1e-9
absolute error (the proved machinery shows the true error is below 2e-14). -/
theorem claim_C2_oklab_roundtrip (r g b : ℝ)
    (hr0 : 0 ≤ r) (hr1 : r ≤ 1) (hg0 : 0 ≤ g) (hg1 : g ≤ 1)
    (hb0 : 0 ≤ b) (hb1 : b ≤ 1) :
    |(Convert.oklabToLinear (Convert.linearToOklab r g b).1
        (Convert.linearToOklab r g b).2.1 (Convert.linearToOklab r g b).2.2).1 - r| ≤ 1e-9 ∧
    |(Convert.oklabToLinear (Convert.linearToOklab r g b).1
        (Convert.linearToOklab r g b).2.1 (Convert.linearToOklab r g b).2.2).2.1 - g| ≤ 1e-9 ∧
    |(Convert.oklabToLinear (Convert.linearToOklab r g b).1
        (Convert.linearToOklab r g b).2.1 (Convert.linearToOklab r g b).2.2).2.2 - b| ≤ 1e-9 := by
  have hc1 : (0 : ℝ) ≤ 0.412221469470763 * r + 0.5363325372617348 * g + 0.0514459932675022 * b := by linarith
  have hu1 : (0.412221469470763 * r + 0.5363325372617348 * g + 0.0514459932675022 * b) ≤ 1.001 * 1.001 * 1.001 := by linarith
  have ha1 : |(0.412221469470763 * r + 0.5363325372617348 * g + 0.0514459932675022 * b) ^ ((1 : ℝ) / 3)| ≤ 1.001 := by
    rw [abs_of_nonneg (Real.rpow_nonneg hc1 _)]
    exact Convert.cbrt_le_of_le _ _ hc1 (by norm_num) hu1
  have hc2 : (0 : ℝ) ≤ 0.2119034958178252 * r + 0.6806995506452344 * g + 0.1073969535369406 * b := by linarith
  have hu2 : (0.2119034958178252 * r + 0.6806995506452344 * g + 0.1073969535369406 * b) ≤ 1.001 * 1.001 * 1.001 := by linarith
  have ha2 : |(0.2119034958178252 * r + 0.6806995506452344 * g + 0.1073969535369406 * b) ^ ((1 : ℝ) / 3)| ≤ 1.001 := by
    rw [abs_of_nonneg (Real.rpow_nonneg hc2 _)]
    exact Convert.cbrt_le_of_le _ _ hc2 (by norm_num) hu2
  have hc3 : (0 : ℝ) ≤ 0.0883024591900564 * r + 0.2817188391361215 * g + 0.6299787016738222 * b := by linarith
  have hu3 : (0.0883024591900564 * r + 0.2817188391361215 * g + 0.6299787016738222 * b) ≤ 1.001 * 1.001 * 1.001 := by linarith
  have ha3 : |(0.0883024591900564 * r + 0.2817188391361215 * g + 0.6299787016738222 * b) ^ ((1 : ℝ) / 3)| ≤ 1.001 := by
    rw [abs_of_nonneg (Real.rpow_nonneg hc3 _)]
    exact Convert.cbrt_le_of_le _ _ hc3 (by norm_num) hu3
  exact Convert.oklab_roundtrip_core
    ((0.412221469470763 * r + 0.5363325372617348 * g + 0.0514459932675022 * b) ^ ((1 : ℝ) / 3))
    ((0.2119034958178252 * r + 0.6806995506452344 * g + 0.1073969535369406 * b) ^ ((1 : ℝ) / 3))
    ((0.0883024591900564 * r + 0.2817188391361215 * g + 0.6299787016738222 * b) ^ ((1 : ℝ) / 3)) r g b
    (Convert.cbrt_cube _ hc1) (Convert.cbrt_cube _ hc2) (Convert.cbrt_cube _ hc3)
    ha1 ha2 ha3 hr0 hr1 hg0 hg1 hb0 hb1

set_option maxHeartbeats 1000000 in
/-- C2 witness: the round trip at the mid gray (0.5, 0.5, 0.5) lands within
1e-9 of the input on every channel. -/
theorem claim_C2_witness :
    |(Convert.oklabToLinear (Convert.linearToOklab 0.5 0.5 0.5).1
        (Convert.linearToOklab 0.5 0.5 0.5).2.1
        (Convert.linearToOklab 0.5 0.5 0.5).2.2).1 - 0.5| ≤ 1e-9 ∧
    |(Convert.oklabToLinear (Convert.linearToOklab 0.5 0.5 0.5).1
        (Convert.linearToOklab 0.5 0.5 0.5).2.1
        (Convert.linearToOklab 0.5 0.5 0.5).2.2).2.1 - 0.5| ≤ 1e-9 ∧
    |(Convert.oklabToLinear (Convert.linearToOklab 0.5 0.5 0.5).1
        (Convert.linearToOklab 0.5 0.5 0.5).2.1
        (Convert.linearToOklab 0.5 0.5 0.5).2.2).2.2 - 0.5| ≤ 1e-9 :=
  claim_C2_oklab_roundtrip 0.5 0.5 0.5 (by norm_num) (by norm_num) (by norm_num)
    (by norm_num) (by norm_num) (by norm_num)
